import Mathlib

/-!
Shallow embedding of parts of libirecovery (libimobiledevice/libirecovery),
translated from the C sources, together with theorems settling a list of
claims about the library's specification.

Machine integers are modelled as `Nat` with explicit reductions `% 2^w`
where the C code truncates.  C strings are modelled as `List Char`
(NUL-free), byte buffers as `List Nat` (each element < 256).
-/

/-- Error codes of libirecovery (`irecv_error_t`), modelled as an inductive
type; the claims refer to error kinds by name only, so the concrete integer
values of the C enum are not needed. -/
inductive irecv_error where
  | IRECV_E_SUCCESS
  | IRECV_E_NO_DEVICE
  | IRECV_E_OUT_OF_MEMORY
  | IRECV_E_UNABLE_TO_CONNECT
  | IRECV_E_INVALID_INPUT
  | IRECV_E_FILE_NOT_FOUND
  | IRECV_E_USB_UPLOAD
  | IRECV_E_USB_STATUS
  | IRECV_E_USB_INTERFACE
  | IRECV_E_USB_CONFIGURATION
  | IRECV_E_PIPE
  | IRECV_E_TIMEOUT
  | IRECV_E_UNSUPPORTED
  | IRECV_E_UNKNOWN_ERROR
deriving DecidableEq, Repr

open irecv_error

/-- USB product id of WTF mode.  The `IRECV_K_*` mode constants are declared
in the public header `libirecovery.h` (not under `src/`); their values are
as stated in the specification ("DFU = 0x1227, WTF = 0x1222, Port-DFU =
0x1881, Recovery1..4 = 0x1280..0x1283") and are consistent with the values
in the historical headers that are present in the sources. -/
def IRECV_K_WTF_MODE : Nat := 0x1222

/-- USB product id of DFU mode (see `IRECV_K_WTF_MODE`). -/
def IRECV_K_DFU_MODE : Nat := 0x1227

/-- USB product id of Port-DFU mode (see `IRECV_K_WTF_MODE`). -/
def IRECV_K_PORT_DFU_MODE : Nat := 0x1881

/-- USB product id of Recovery mode variant 1 (see `IRECV_K_WTF_MODE`). -/
def IRECV_K_RECOVERY_MODE_1 : Nat := 0x1280

/-- USB product id of Recovery mode variant 2 (see `IRECV_K_WTF_MODE`). -/
def IRECV_K_RECOVERY_MODE_2 : Nat := 0x1281

/-- USB product id of Recovery mode variant 3 (see `IRECV_K_WTF_MODE`). -/
def IRECV_K_RECOVERY_MODE_3 : Nat := 0x1282

/-- USB product id of Recovery mode variant 4 (see `IRECV_K_WTF_MODE`). -/
def IRECV_K_RECOVERY_MODE_4 : Nat := 0x1283

/-- KIS product id, `#define KIS_PRODUCT_ID 0x1881` in libirecovery.c. -/
def KIS_PRODUCT_ID : Nat := 0x1881

/-- One row of the static device database (`struct irecv_device`). -/
structure irecv_device where
  product_type : String
  hardware_model : String
  board_id : Nat
  chip_id : Nat
  display_name : String
deriving DecidableEq, Repr

/-- Rows 0..39 of the static device database `irecv_devices[]`
(split into chunks to keep elaboration cheap; see `irecv_devices`). -/
def irecv_devices_part0 : List irecv_device := [
  ⟨"iPhone1,1", "m68ap", 0x00, 0x8900, "iPhone 2G"⟩,
  ⟨"iPhone1,2", "n82ap", 0x04, 0x8900, "iPhone 3G"⟩,
  ⟨"iPhone2,1", "n88ap", 0x00, 0x8920, "iPhone 3Gs"⟩,
  ⟨"iPhone3,1", "n90ap", 0x00, 0x8930, "iPhone 4 (GSM)"⟩,
  ⟨"iPhone3,2", "n90bap", 0x04, 0x8930, "iPhone 4 (GSM) R2 2012"⟩,
  ⟨"iPhone3,3", "n92ap", 0x06, 0x8930, "iPhone 4 (CDMA)"⟩,
  ⟨"iPhone4,1", "n94ap", 0x08, 0x8940, "iPhone 4s"⟩,
  ⟨"iPhone5,1", "n41ap", 0x00, 0x8950, "iPhone 5 (GSM)"⟩,
  ⟨"iPhone5,2", "n42ap", 0x02, 0x8950, "iPhone 5 (Global)"⟩,
  ⟨"iPhone5,3", "n48ap", 0x0a, 0x8950, "iPhone 5c (GSM)"⟩,
  ⟨"iPhone5,4", "n49ap", 0x0e, 0x8950, "iPhone 5c (Global)"⟩,
  ⟨"iPhone6,1", "n51ap", 0x00, 0x8960, "iPhone 5s (GSM)"⟩,
  ⟨"iPhone6,2", "n53ap", 0x02, 0x8960, "iPhone 5s (Global)"⟩,
  ⟨"iPhone7,1", "n56ap", 0x04, 0x7000, "iPhone 6 Plus"⟩,
  ⟨"iPhone7,2", "n61ap", 0x06, 0x7000, "iPhone 6"⟩,
  ⟨"iPhone8,1", "n71ap", 0x04, 0x8000, "iPhone 6s"⟩,
  ⟨"iPhone8,1", "n71map", 0x04, 0x8003, "iPhone 6s"⟩,
  ⟨"iPhone8,2", "n66ap", 0x06, 0x8000, "iPhone 6s Plus"⟩,
  ⟨"iPhone8,2", "n66map", 0x06, 0x8003, "iPhone 6s Plus"⟩,
  ⟨"iPhone8,4", "n69ap", 0x02, 0x8003, "iPhone SE (1st gen)"⟩,
  ⟨"iPhone8,4", "n69uap", 0x02, 0x8000, "iPhone SE (1st gen)"⟩,
  ⟨"iPhone9,1", "d10ap", 0x08, 0x8010, "iPhone 7 (Global)"⟩,
  ⟨"iPhone9,2", "d11ap", 0x0a, 0x8010, "iPhone 7 Plus (Global)"⟩,
  ⟨"iPhone9,3", "d101ap", 0x0c, 0x8010, "iPhone 7 (GSM)"⟩,
  ⟨"iPhone9,4", "d111ap", 0x0e, 0x8010, "iPhone 7 Plus (GSM)"⟩,
  ⟨"iPhone10,1", "d20ap", 0x02, 0x8015, "iPhone 8 (Global)"⟩,
  ⟨"iPhone10,2", "d21ap", 0x04, 0x8015, "iPhone 8 Plus (Global)"⟩,
  ⟨"iPhone10,3", "d22ap", 0x06, 0x8015, "iPhone X (Global)"⟩,
  ⟨"iPhone10,4", "d201ap", 0x0a, 0x8015, "iPhone 8 (GSM)"⟩,
  ⟨"iPhone10,5", "d211ap", 0x0c, 0x8015, "iPhone 8 Plus (GSM)"⟩,
  ⟨"iPhone10,6", "d221ap", 0x0e, 0x8015, "iPhone X (GSM)"⟩,
  ⟨"iPhone11,2", "d321ap", 0x0e, 0x8020, "iPhone XS"⟩,
  ⟨"iPhone11,4", "d331ap", 0x0a, 0x8020, "iPhone XS Max (China)"⟩,
  ⟨"iPhone11,6", "d331pap", 0x1a, 0x8020, "iPhone XS Max"⟩,
  ⟨"iPhone11,8", "n841ap", 0x0c, 0x8020, "iPhone XR"⟩,
  ⟨"iPhone12,1", "n104ap", 0x04, 0x8030, "iPhone 11"⟩,
  ⟨"iPhone12,3", "d421ap", 0x06, 0x8030, "iPhone 11 Pro"⟩,
  ⟨"iPhone12,5", "d431ap", 0x02, 0x8030, "iPhone 11 Pro Max"⟩,
  ⟨"iPhone12,8", "d79ap", 0x10, 0x8030, "iPhone SE (2nd gen)"⟩,
  ⟨"iPhone13,1", "d52gap", 0x0A, 0x8101, "iPhone 12 mini"⟩]

/-- Rows 40..79 of the static device database `irecv_devices[]`
(split into chunks to keep elaboration cheap; see `irecv_devices`). -/
def irecv_devices_part1 : List irecv_device := [
  ⟨"iPhone13,2", "d53gap", 0x0C, 0x8101, "iPhone 12"⟩,
  ⟨"iPhone13,3", "d53pap", 0x0E, 0x8101, "iPhone 12 Pro"⟩,
  ⟨"iPhone13,4", "d54pap", 0x08, 0x8101, "iPhone 12 Pro Max"⟩,
  ⟨"iPhone14,2", "d63ap", 0x0C, 0x8110, "iPhone 13 Pro"⟩,
  ⟨"iPhone14,3", "d64ap", 0x0E, 0x8110, "iPhone 13 Pro Max"⟩,
  ⟨"iPhone14,4", "d16ap", 0x08, 0x8110, "iPhone 13 mini"⟩,
  ⟨"iPhone14,5", "d17ap", 0x0A, 0x8110, "iPhone 13"⟩,
  ⟨"iPhone14,6", "d49ap", 0x10, 0x8110, "iPhone SE (3rd gen)"⟩,
  ⟨"iPhone14,7", "d27ap", 0x18, 0x8110, "iPhone 14"⟩,
  ⟨"iPhone14,8", "d28ap", 0x1A, 0x8110, "iPhone 14 Plus"⟩,
  ⟨"iPhone15,2", "d73ap", 0x0C, 0x8120, "iPhone 14 Pro"⟩,
  ⟨"iPhone15,3", "d74ap", 0x0E, 0x8120, "iPhone 14 Pro Max"⟩,
  ⟨"iPhone15,4", "d37ap", 0x08, 0x8120, "iPhone 15"⟩,
  ⟨"iPhone15,5", "d38ap", 0x0A, 0x8120, "iPhone 15 Plus"⟩,
  ⟨"iPhone16,1", "d83ap", 0x04, 0x8130, "iPhone 15 Pro"⟩,
  ⟨"iPhone16,2", "d84ap", 0x06, 0x8130, "iPhone 15 Pro Max"⟩,
  ⟨"iPhone17,1", "d93ap", 0x0C, 0x8140, "iPhone 16 Pro"⟩,
  ⟨"iPhone17,2", "d94ap", 0x0E, 0x8140, "iPhone 16 Pro Max"⟩,
  ⟨"iPhone17,3", "d47ap", 0x08, 0x8140, "iPhone 16"⟩,
  ⟨"iPhone17,4", "d48ap", 0x0A, 0x8140, "iPhone 16 Plus"⟩,
  ⟨"iPhone17,5", "v59ap", 0x04, 0x8140, "iPhone 16e"⟩,
  ⟨"iPod1,1", "n45ap", 0x02, 0x8900, "iPod Touch (1st gen)"⟩,
  ⟨"iPod2,1", "n72ap", 0x00, 0x8720, "iPod Touch (2nd gen)"⟩,
  ⟨"iPod3,1", "n18ap", 0x02, 0x8922, "iPod Touch (3rd gen)"⟩,
  ⟨"iPod4,1", "n81ap", 0x08, 0x8930, "iPod Touch (4th gen)"⟩,
  ⟨"iPod5,1", "n78ap", 0x00, 0x8942, "iPod Touch (5th gen)"⟩,
  ⟨"iPod7,1", "n102ap", 0x10, 0x7000, "iPod Touch (6th gen)"⟩,
  ⟨"iPod9,1", "n112ap", 0x16, 0x8010, "iPod Touch (7th gen)"⟩,
  ⟨"iPad1,1", "k48ap", 0x02, 0x8930, "iPad"⟩,
  ⟨"iPad2,1", "k93ap", 0x04, 0x8940, "iPad 2 (WiFi)"⟩,
  ⟨"iPad2,2", "k94ap", 0x06, 0x8940, "iPad 2 (GSM)"⟩,
  ⟨"iPad2,3", "k95ap", 0x02, 0x8940, "iPad 2 (CDMA)"⟩,
  ⟨"iPad2,4", "k93aap", 0x06, 0x8942, "iPad 2 (WiFi) R2 2012"⟩,
  ⟨"iPad2,5", "p105ap", 0x0a, 0x8942, "iPad mini (WiFi)"⟩,
  ⟨"iPad2,6", "p106ap", 0x0c, 0x8942, "iPad mini (GSM)"⟩,
  ⟨"iPad2,7", "p107ap", 0x0e, 0x8942, "iPad mini (Global)"⟩,
  ⟨"iPad3,1", "j1ap", 0x00, 0x8945, "iPad (3rd gen, WiFi)"⟩,
  ⟨"iPad3,2", "j2ap", 0x02, 0x8945, "iPad (3rd gen, CDMA)"⟩,
  ⟨"iPad3,3", "j2aap", 0x04, 0x8945, "iPad (3rd gen, GSM)"⟩,
  ⟨"iPad3,4", "p101ap", 0x00, 0x8955, "iPad (4th gen, WiFi)"⟩]

/-- Rows 80..119 of the static device database `irecv_devices[]`
(split into chunks to keep elaboration cheap; see `irecv_devices`). -/
def irecv_devices_part2 : List irecv_device := [
  ⟨"iPad3,5", "p102ap", 0x02, 0x8955, "iPad (4th gen, GSM)"⟩,
  ⟨"iPad3,6", "p103ap", 0x04, 0x8955, "iPad (4th gen, Global)"⟩,
  ⟨"iPad4,1", "j71ap", 0x10, 0x8960, "iPad Air (WiFi)"⟩,
  ⟨"iPad4,2", "j72ap", 0x12, 0x8960, "iPad Air (Cellular)"⟩,
  ⟨"iPad4,3", "j73ap", 0x14, 0x8960, "iPad Air (China)"⟩,
  ⟨"iPad4,4", "j85ap", 0x0a, 0x8960, "iPad mini 2 (WiFi)"⟩,
  ⟨"iPad4,5", "j86ap", 0x0c, 0x8960, "iPad mini 2 (Cellular)"⟩,
  ⟨"iPad4,6", "j87ap", 0x0e, 0x8960, "iPad mini 2 (China)"⟩,
  ⟨"iPad4,7", "j85map", 0x32, 0x8960, "iPad mini 3 (WiFi)"⟩,
  ⟨"iPad4,8", "j86map", 0x34, 0x8960, "iPad mini 3 (Cellular)"⟩,
  ⟨"iPad4,9", "j87map", 0x36, 0x8960, "iPad mini 3 (China)"⟩,
  ⟨"iPad5,1", "j96ap", 0x08, 0x7000, "iPad mini 4 (WiFi)"⟩,
  ⟨"iPad5,2", "j97ap", 0x0A, 0x7000, "iPad mini 4 (Cellular)"⟩,
  ⟨"iPad5,3", "j81ap", 0x06, 0x7001, "iPad Air 2 (WiFi)"⟩,
  ⟨"iPad5,4", "j82ap", 0x02, 0x7001, "iPad Air 2 (Cellular)"⟩,
  ⟨"iPad6,3", "j127ap", 0x08, 0x8001, "iPad Pro 9.7-inch (WiFi)"⟩,
  ⟨"iPad6,4", "j128ap", 0x0a, 0x8001, "iPad Pro 9.7-inch (Cellular)"⟩,
  ⟨"iPad6,7", "j98aap", 0x10, 0x8001, "iPad Pro 12.9-inch (1st gen, WiFi)"⟩,
  ⟨"iPad6,8", "j99aap", 0x12, 0x8001, "iPad Pro 12.9-inch (1st gen, Cellular)"⟩,
  ⟨"iPad6,11", "j71sap", 0x10, 0x8000, "iPad (5th gen, WiFi)"⟩,
  ⟨"iPad6,11", "j71tap", 0x10, 0x8003, "iPad (5th gen, WiFi)"⟩,
  ⟨"iPad6,12", "j72sap", 0x12, 0x8000, "iPad (5th gen, Cellular)"⟩,
  ⟨"iPad6,12", "j72tap", 0x12, 0x8003, "iPad (5th gen, Cellular)"⟩,
  ⟨"iPad7,1", "j120ap", 0x0C, 0x8011, "iPad Pro 12.9-inch (2nd gen, WiFi)"⟩,
  ⟨"iPad7,2", "j121ap", 0x0E, 0x8011, "iPad Pro 12.9-inch (2nd gen, Cellular)"⟩,
  ⟨"iPad7,3", "j207ap", 0x04, 0x8011, "iPad Pro 10.5-inch (WiFi)"⟩,
  ⟨"iPad7,4", "j208ap", 0x06, 0x8011, "iPad Pro 10.5-inch (Cellular)"⟩,
  ⟨"iPad7,5", "j71bap", 0x18, 0x8010, "iPad (6th gen, WiFi)"⟩,
  ⟨"iPad7,6", "j72bap", 0x1A, 0x8010, "iPad (6th gen, Cellular)"⟩,
  ⟨"iPad7,11", "j171ap", 0x1C, 0x8010, "iPad (7th gen, WiFi)"⟩,
  ⟨"iPad7,12", "j172ap", 0x1E, 0x8010, "iPad (7th gen, Cellular)"⟩,
  ⟨"iPad8,1", "j317ap", 0x0C, 0x8027, "iPad Pro 11-inch (1st gen, WiFi)"⟩,
  ⟨"iPad8,2", "j317xap", 0x1C, 0x8027, "iPad Pro 11-inch (1st gen, WiFi, 1TB)"⟩,
  ⟨"iPad8,3", "j318ap", 0x0E, 0x8027, "iPad Pro 11-inch (1st gen, Cellular)"⟩,
  ⟨"iPad8,4", "j318xap", 0x1E, 0x8027, "iPad Pro 11-inch (1st gen, Cellular, 1TB)"⟩,
  ⟨"iPad8,5", "j320ap", 0x08, 0x8027, "iPad Pro 12.9-inch (3rd gen, WiFi)"⟩,
  ⟨"iPad8,6", "j320xap", 0x18, 0x8027, "iPad Pro 12.9-inch (3rd gen, WiFi, 1TB)"⟩,
  ⟨"iPad8,7", "j321ap", 0x0A, 0x8027, "iPad Pro 12.9-inch (3rd gen, Cellular)"⟩,
  ⟨"iPad8,8", "j321xap", 0x1A, 0x8027, "iPad Pro 12.9-inch (3rd gen, Cellular, 1TB)"⟩,
  ⟨"iPad8,9", "j417ap", 0x3C, 0x8027, "iPad Pro 11-inch (2nd gen, WiFi)"⟩]

/-- Rows 120..159 of the static device database `irecv_devices[]`
(split into chunks to keep elaboration cheap; see `irecv_devices`). -/
def irecv_devices_part3 : List irecv_device := [
  ⟨"iPad8,10", "j418ap", 0x3E, 0x8027, "iPad Pro 11-inch (2nd gen, Cellular)"⟩,
  ⟨"iPad8,11", "j420ap", 0x38, 0x8027, "iPad Pro 12.9-inch (4th gen, WiFi)"⟩,
  ⟨"iPad8,12", "j421ap", 0x3A, 0x8027, "iPad Pro 12.9-inch (4th gen, Cellular)"⟩,
  ⟨"iPad11,1", "j210ap", 0x14, 0x8020, "iPad mini (5th gen, WiFi)"⟩,
  ⟨"iPad11,2", "j211ap", 0x16, 0x8020, "iPad mini (5th gen, Cellular)"⟩,
  ⟨"iPad11,3", "j217ap", 0x1C, 0x8020, "iPad Air (3rd gen, WiFi)"⟩,
  ⟨"iPad11,4", "j218ap", 0x1E, 0x8020, "iPad Air (3rd gen, Cellular)"⟩,
  ⟨"iPad11,6", "j171aap", 0x24, 0x8020, "iPad (8th gen, WiFi)"⟩,
  ⟨"iPad11,7", "j172aap", 0x26, 0x8020, "iPad (8th gen, Cellular)"⟩,
  ⟨"iPad12,1", "j181ap", 0x18, 0x8030, "iPad (9th gen, WiFi)"⟩,
  ⟨"iPad12,2", "j182ap", 0x1A, 0x8030, "iPad (9th gen, Cellular)"⟩,
  ⟨"iPad13,1", "j307ap", 0x04, 0x8101, "iPad Air (4th gen, WiFi)"⟩,
  ⟨"iPad13,2", "j308ap", 0x06, 0x8101, "iPad Air (4th gen, Cellular)"⟩,
  ⟨"iPad13,4", "j517ap", 0x08, 0x8103, "iPad Pro 11-inch (3rd gen, WiFi)"⟩,
  ⟨"iPad13,5", "j517xap", 0x0A, 0x8103, "iPad Pro 11-inch (3rd gen, WiFi, 2TB)"⟩,
  ⟨"iPad13,6", "j518ap", 0x0C, 0x8103, "iPad Pro 11-inch (3rd gen, Cellular)"⟩,
  ⟨"iPad13,7", "j518xap", 0x0E, 0x8103, "iPad Pro 11-inch (3rd gen, Cellular, 2TB)"⟩,
  ⟨"iPad13,8", "j522ap", 0x18, 0x8103, "iPad Pro 12.9-inch (5th gen, WiFi)"⟩,
  ⟨"iPad13,9", "j522xap", 0x1A, 0x8103, "iPad Pro 12.9-inch (5th gen, WiFi, 2TB)"⟩,
  ⟨"iPad13,10", "j523ap", 0x1C, 0x8103, "iPad Pro 12.9-inch (5th gen, Cellular)"⟩,
  ⟨"iPad13,11", "j523xap", 0x1E, 0x8103, "iPad Pro 12.9-inch (5th gen, Cellular, 2TB)"⟩,
  ⟨"iPad13,16", "j407ap", 0x10, 0x8103, "iPad Air (5th gen, WiFi)"⟩,
  ⟨"iPad13,17", "j408ap", 0x12, 0x8103, "iPad Air (5th gen, Cellular)"⟩,
  ⟨"iPad13,18", "j271ap", 0x14, 0x8101, "iPad (10th gen, WiFi)"⟩,
  ⟨"iPad13,19", "j272ap", 0x16, 0x8101, "iPad (10th gen, Cellular)"⟩,
  ⟨"iPad14,1", "j310ap", 0x04, 0x8110, "iPad mini (6th gen, WiFi)"⟩,
  ⟨"iPad14,2", "j311ap", 0x06, 0x8110, "iPad mini (6th gen, Cellular)"⟩,
  ⟨"iPad14,3", "j617ap", 0x08, 0x8112, "iPad Pro 11-inch (4th gen, WiFi)"⟩,
  ⟨"iPad14,4", "j618ap", 0x0A, 0x8112, "iPad Pro 11-inch (4th gen, Cellular)"⟩,
  ⟨"iPad14,5", "j620ap", 0x0C, 0x8112, "iPad Pro 12.9-inch (6th gen, WiFi)"⟩,
  ⟨"iPad14,6", "j621ap", 0x0E, 0x8112, "iPad Pro 12.9-inch (6th gen, Cellular)"⟩,
  ⟨"iPad14,8", "j507ap", 0x10, 0x8112, "iPad Air 11-inch (M2, WiFi)"⟩,
  ⟨"iPad14,9", "j508ap", 0x12, 0x8112, "iPad Air 11-inch (M2, Cellular)"⟩,
  ⟨"iPad14,10", "j537ap", 0x14, 0x8112, "iPad Air 13-inch (M2, WiFi)"⟩,
  ⟨"iPad14,11", "j538ap", 0x16, 0x8112, "iPad Air 13-inch (M2, Cellular)"⟩,
  ⟨"iPad16,1", "j410ap", 0x08, 0x8130, "iPad mini (A17 Pro, WiFi)"⟩,
  ⟨"iPad16,2", "j411ap", 0x0A, 0x8130, "iPad mini (A17 Pro, Cellular)"⟩,
  ⟨"iPad16,3", "j717ap", 0x08, 0x8132, "iPad Pro 11-inch (M4, WiFi)"⟩,
  ⟨"iPad16,4", "j718ap", 0x0A, 0x8132, "iPad Pro 11-inch (M4, Cellular)"⟩,
  ⟨"iPad16,5", "j720ap", 0x0C, 0x8132, "iPad Pro 13-inch (M4, WiFi)"⟩]

/-- Rows 160..199 of the static device database `irecv_devices[]`
(split into chunks to keep elaboration cheap; see `irecv_devices`). -/
def irecv_devices_part4 : List irecv_device := [
  ⟨"iPad16,6", "j721ap", 0x0E, 0x8132, "iPad Pro 13-inch (M4, Cellular)"⟩,
  ⟨"AppleTV2,1", "k66ap", 0x10, 0x8930, "Apple TV 2"⟩,
  ⟨"AppleTV3,1", "j33ap", 0x08, 0x8942, "Apple TV 3"⟩,
  ⟨"AppleTV3,2", "j33iap", 0x00, 0x8947, "Apple TV 3 (2013)"⟩,
  ⟨"AppleTV5,3", "j42dap", 0x34, 0x7000, "Apple TV 4"⟩,
  ⟨"AppleTV6,2", "j105aap", 0x02, 0x8011, "Apple TV 4K"⟩,
  ⟨"AppleTV11,1", "j305ap", 0x08, 0x8020, "Apple TV 4K (2nd gen)"⟩,
  ⟨"AppleTV14,1", "j255ap", 0x02, 0x8110, "Apple TV 4K (3rd gen)"⟩,
  ⟨"AudioAccessory1,1", "b238aap", 0x38, 0x7000, "HomePod (1st gen)"⟩,
  ⟨"AudioAccessory1,2", "b238ap", 0x1A, 0x7000, "HomePod (1st gen)"⟩,
  ⟨"AudioAccessory5,1", "b520ap", 0x22, 0x8006, "HomePod mini"⟩,
  ⟨"AudioAccessory6,1", "b620ap", 0x18, 0x8301, "HomePod (2nd gen)"⟩,
  ⟨"Watch1,1", "n27aap", 0x02, 0x7002, "Apple Watch 38mm (1st gen)"⟩,
  ⟨"Watch1,2", "n28aap", 0x04, 0x7002, "Apple Watch 42mm (1st gen)"⟩,
  ⟨"Watch2,6", "n27dap", 0x02, 0x8002, "Apple Watch Series 1 (38mm)"⟩,
  ⟨"Watch2,7", "n28dap", 0x04, 0x8002, "Apple Watch Series 1 (42mm)"⟩,
  ⟨"Watch2,3", "n74ap", 0x0C, 0x8002, "Apple Watch Series 2 (38mm)"⟩,
  ⟨"Watch2,4", "n75ap", 0x0E, 0x8002, "Apple Watch Series 2 (42mm)"⟩,
  ⟨"Watch3,1", "n111sap", 0x1C, 0x8004, "Apple Watch Series 3 (38mm Cellular)"⟩,
  ⟨"Watch3,2", "n111bap", 0x1E, 0x8004, "Apple Watch Series 3 (42mm Cellular)"⟩,
  ⟨"Watch3,3", "n121sap", 0x18, 0x8004, "Apple Watch Series 3 (38mm)"⟩,
  ⟨"Watch3,4", "n121bap", 0x1A, 0x8004, "Apple Watch Series 3 (42mm)"⟩,
  ⟨"Watch4,1", "n131sap", 0x08, 0x8006, "Apple Watch Series 4 (40mm)"⟩,
  ⟨"Watch4,2", "n131bap", 0x0A, 0x8006, "Apple Watch Series 4 (44mm)"⟩,
  ⟨"Watch4,3", "n141sap", 0x0C, 0x8006, "Apple Watch Series 4 (40mm Cellular)"⟩,
  ⟨"Watch4,4", "n141bap", 0x0E, 0x8006, "Apple Watch Series 4 (44mm Cellular)"⟩,
  ⟨"Watch5,1", "n144sap", 0x10, 0x8006, "Apple Watch Series 5 (40mm)"⟩,
  ⟨"Watch5,2", "n144bap", 0x12, 0x8006, "Apple Watch Series 5 (44mm)"⟩,
  ⟨"Watch5,3", "n146sap", 0x14, 0x8006, "Apple Watch Series 5 (40mm Cellular)"⟩,
  ⟨"Watch5,4", "n146bap", 0x16, 0x8006, "Apple Watch Series 5 (44mm Cellular)"⟩,
  ⟨"Watch5,9", "n140sap", 0x28, 0x8006, "Apple Watch SE (40mm)"⟩,
  ⟨"Watch5,10", "n140bap", 0x2A, 0x8006, "Apple Watch SE (44mm)"⟩,
  ⟨"Watch5,11", "n142sap", 0x2C, 0x8006, "Apple Watch SE (40mm Cellular)"⟩,
  ⟨"Watch5,12", "n142bap", 0x2E, 0x8006, "Apple Watch SE (44mm Cellular)"⟩,
  ⟨"Watch6,1", "n157sap", 0x08, 0x8301, "Apple Watch Series 6 (40mm)"⟩,
  ⟨"Watch6,2", "n157bap", 0x0A, 0x8301, "Apple Watch Series 6 (44mm)"⟩,
  ⟨"Watch6,3", "n158sap", 0x0C, 0x8301, "Apple Watch Series 6 (40mm Cellular)"⟩,
  ⟨"Watch6,4", "n158bap", 0x0E, 0x8301, "Apple Watch Series 6 (44mm Cellular)"⟩,
  ⟨"Watch6,6", "n187sap", 0x10, 0x8301, "Apple Watch Series 7 (41mm)"⟩,
  ⟨"Watch6,7", "n187bap", 0x12, 0x8301, "Apple Watch Series 7 (45mm)"⟩]

/-- Rows 200..239 of the static device database `irecv_devices[]`
(split into chunks to keep elaboration cheap; see `irecv_devices`). -/
def irecv_devices_part5 : List irecv_device := [
  ⟨"Watch6,8", "n188sap", 0x14, 0x8301, "Apple Watch Series 7 (41mm Cellular)"⟩,
  ⟨"Watch6,9", "n188bap", 0x16, 0x8301, "Apple Watch Series 7 (45mm Cellular)"⟩,
  ⟨"Watch6,10", "n143sap", 0x28, 0x8301, "Apple Watch SE 2 (40mm)"⟩,
  ⟨"Watch6,11", "n143bap", 0x2A, 0x8301, "Apple Watch SE 2 (44mm)"⟩,
  ⟨"Watch6,12", "n149sap", 0x2C, 0x8301, "Apple Watch SE 2 (40mm Cellular)"⟩,
  ⟨"Watch6,13", "n149bap", 0x2E, 0x8301, "Apple Watch SE 2 (44mm Cellular)"⟩,
  ⟨"Watch6,14", "n197sap", 0x30, 0x8301, "Apple Watch Series 8 (41mm)"⟩,
  ⟨"Watch6,15", "n197bap", 0x32, 0x8301, "Apple Watch Series 8 (45mm)"⟩,
  ⟨"Watch6,16", "n198sap", 0x34, 0x8301, "Apple Watch Series 8 (41mm Cellular)"⟩,
  ⟨"Watch6,17", "n198bap", 0x36, 0x8301, "Apple Watch Series 8 (45mm Cellular)"⟩,
  ⟨"Watch6,18", "n199ap", 0x26, 0x8301, "Apple Watch Ultra"⟩,
  ⟨"Watch7,1", "n207sap", 0x08, 0x8310, "Apple Watch Series 9 (41mm)"⟩,
  ⟨"Watch7,2", "n207bap", 0x0A, 0x8310, "Apple Watch Series 9 (45mm)"⟩,
  ⟨"Watch7,3", "n208sap", 0x0C, 0x8310, "Apple Watch Series 9 (41mm Cellular)"⟩,
  ⟨"Watch7,4", "n208bap", 0x0E, 0x8310, "Apple Watch Series 9 (45mm Cellular)"⟩,
  ⟨"Watch7,5", "n210ap", 0x02, 0x8310, "Apple Watch Ultra 2"⟩,
  ⟨"Watch7,8", "n217sap", 0x10, 0x8310, "Apple Watch Series 10 (42mm)"⟩,
  ⟨"Watch7,9", "n217bap", 0x12, 0x8310, "Apple Watch Series 10 (46mm)"⟩,
  ⟨"Watch7,10", "n218sap", 0x14, 0x8310, "Apple Watch Series 10 (42mm Cellular)"⟩,
  ⟨"Watch7,11", "n218bap", 0x16, 0x8310, "Apple Watch Series 10 (46mm Cellular)"⟩,
  ⟨"ADP3,2", "j273aap", 0x42, 0x8027, "Developer Transition Kit (2020)"⟩,
  ⟨"Macmini9,1", "j274ap", 0x22, 0x8103, "Mac mini (M1, 2020)"⟩,
  ⟨"MacBookPro17,1", "j293ap", 0x24, 0x8103, "MacBook Pro (M1, 13-inch, 2020)"⟩,
  ⟨"MacBookPro18,1", "j316sap", 0x0A, 0x6000, "MacBook Pro (M1 Pro, 16-inch, 2021)"⟩,
  ⟨"MacBookPro18,2", "j316cap", 0x0A, 0x6001, "MacBook Pro (M1 Max, 16-inch, 2021)"⟩,
  ⟨"MacBookPro18,3", "j314sap", 0x08, 0x6000, "MacBook Pro (M1 Pro, 14-inch, 2021)"⟩,
  ⟨"MacBookPro18,4", "j314cap", 0x08, 0x6001, "MacBook Pro (M1 Max, 14-inch, 2021)"⟩,
  ⟨"MacBookAir10,1", "j313ap", 0x26, 0x8103, "MacBook Air (M1, 2020)"⟩,
  ⟨"iMac21,1", "j456ap", 0x28, 0x8103, "iMac 24-inch (M1, Two Ports, 2021)"⟩,
  ⟨"iMac21,2", "j457ap", 0x2A, 0x8103, "iMac 24-inch (M1, Four Ports, 2021)"⟩,
  ⟨"Mac13,1", "j375cap", 0x04, 0x6001, "Mac Studio (M1 Max, 2022)"⟩,
  ⟨"Mac13,2", "j375dap", 0x0C, 0x6002, "Mac Studio (M1 Ultra, 2022)"⟩,
  ⟨"Mac14,2", "j413ap", 0x28, 0x8112, "MacBook Air (M2, 2022)"⟩,
  ⟨"Mac14,7", "j493ap", 0x2A, 0x8112, "MacBook Pro (M2, 13-inch, 2022)"⟩,
  ⟨"Mac14,3", "j473ap", 0x24, 0x8112, "Mac mini (M2, 2023)"⟩,
  ⟨"Mac14,5", "j414cap", 0x04, 0x6021, "MacBook Pro (14-inch, M2 Max, 2023)"⟩,
  ⟨"Mac14,6", "j416cap", 0x06, 0x6021, "MacBook Pro (16-inch, M2 Max, 2023)"⟩,
  ⟨"Mac14,8", "j180dap", 0x08, 0x6022, "Mac Pro (2023)"⟩,
  ⟨"Mac14,9", "j414sap", 0x04, 0x6020, "MacBook Pro (14-inch, M2 Pro, 2023)"⟩,
  ⟨"Mac14,10", "j416sap", 0x06, 0x6020, "MacBook Pro (16-inch, M2 Pro, 2023)"⟩]

/-- Rows 240..279 of the static device database `irecv_devices[]`
(split into chunks to keep elaboration cheap; see `irecv_devices`). -/
def irecv_devices_part6 : List irecv_device := [
  ⟨"Mac14,12", "j474sap", 0x02, 0x6020, "Mac mini (M2 Pro, 2023)"⟩,
  ⟨"Mac14,13", "j475cap", 0x0A, 0x6021, "Mac Studio (M2 Max, 2023)"⟩,
  ⟨"Mac14,14", "j475dap", 0x0A, 0x6022, "Mac Studio (M2 Ultra, 2023)"⟩,
  ⟨"Mac14,15", "j415ap", 0x2E, 0x8112, "MacBook Air (M2, 15-inch, 2023)"⟩,
  ⟨"Mac15,3", "j504ap", 0x22, 0x8122, "MacBook Pro (14-inch, M3, Nov 2023)"⟩,
  ⟨"Mac15,4", "j433ap", 0x28, 0x8122, "iMac 24-inch (M3, Two Ports, 2023)"⟩,
  ⟨"Mac15,5", "j434ap", 0x2A, 0x8122, "iMac 24-inch (M3, Four Ports, 2023)"⟩,
  ⟨"Mac15,6", "j514sap", 0x04, 0x6030, "MacBook Pro (14-inch, M3 Pro, Nov 2023)"⟩,
  ⟨"Mac15,7", "j516sap", 0x06, 0x6030, "MacBook Pro (16-inch, M3 Pro, Nov 2023)"⟩,
  ⟨"Mac15,8", "j514cap", 0x44, 0x6031, "MacBook Pro (14-inch, M3 Max, Nov 2023)"⟩,
  ⟨"Mac15,9", "j516cap", 0x46, 0x6031, "MacBook Pro (16-inch, M3 Max, Nov 2023)"⟩,
  ⟨"Mac15,10", "j514map", 0x44, 0x6034, "MacBook Pro (14-inch, M3 Max, Nov 2023)"⟩,
  ⟨"Mac15,11", "j516map", 0x46, 0x6034, "MacBook Pro (16-inch, M3 Max, Nov 2023)"⟩,
  ⟨"Mac15,12", "j613ap", 0x30, 0x8122, "MacBook Air (13-inch, M3, 2024)"⟩,
  ⟨"Mac15,13", "j615ap", 0x32, 0x8122, "MacBook Air (15-inch, M3, 2024)"⟩,
  ⟨"Mac16,1", "j604ap", 0x22, 0x8132, "MacBook Pro (14-inch, M4, Nov 2024)"⟩,
  ⟨"Mac16,2", "j623ap", 0x24, 0x8132, "iMac 24-inch (M4, Two Ports, 2024)"⟩,
  ⟨"Mac16,3", "j624ap", 0x26, 0x8132, "iMac 24-inch (M4, Four Ports, 2024)"⟩,
  ⟨"Mac16,5", "j616cap", 0x06, 0x6041, "MacBook Pro (16-inch, M4 Max, Nov 2024)"⟩,
  ⟨"Mac16,6", "j614cap", 0x04, 0x6041, "MacBook Pro (14-inch, M4 Max, Nov 2024)"⟩,
  ⟨"Mac16,7", "j616sap", 0x06, 0x6040, "MacBook Pro (16-inch, M4 Pro, Nov 2024)"⟩,
  ⟨"Mac16,8", "j614sap", 0x04, 0x6040, "MacBook Pro (14-inch, M4 Pro, Nov 2024)"⟩,
  ⟨"Mac16,10", "j773gap", 0x2A, 0x8132, "Mac mini (M4, 2024)"⟩,
  ⟨"Mac16,11", "j773sap", 0x02, 0x6040, "Mac mini (M4 Pro, 2024)"⟩,
  ⟨"VirtualMac2,1", "vma2macosap", 0x20, 0xFE00, "Apple Virtual Machine 1"⟩,
  ⟨"iBridge2,1", "j137ap", 0x0A, 0x8012, "Apple T2 iMacPro1,1 (j137)"⟩,
  ⟨"iBridge2,3", "j680ap", 0x0B, 0x8012, "Apple T2 MacBookPro15,1 (j680)"⟩,
  ⟨"iBridge2,4", "j132ap", 0x0C, 0x8012, "Apple T2 MacBookPro15,2 (j132)"⟩,
  ⟨"iBridge2,5", "j174ap", 0x0E, 0x8012, "Apple T2 Macmini8,1 (j174)"⟩,
  ⟨"iBridge2,6", "j160ap", 0x0F, 0x8012, "Apple T2 MacPro7,1 (j160)"⟩,
  ⟨"iBridge2,7", "j780ap", 0x07, 0x8012, "Apple T2 MacBookPro15,3 (j780)"⟩,
  ⟨"iBridge2,8", "j140kap", 0x17, 0x8012, "Apple T2 MacBookAir8,1 (j140k)"⟩,
  ⟨"iBridge2,10", "j213ap", 0x18, 0x8012, "Apple T2 MacBookPro15,4 (j213)"⟩,
  ⟨"iBridge2,12", "j140aap", 0x37, 0x8012, "Apple T2 MacBookAir8,2 (j140a)"⟩,
  ⟨"iBridge2,14", "j152fap", 0x3A, 0x8012, "Apple T2 MacBookPro16,1 (j152f)"⟩,
  ⟨"iBridge2,15", "j230kap", 0x3F, 0x8012, "Apple T2 MacBookAir9,1 (j230k)"⟩,
  ⟨"iBridge2,16", "j214kap", 0x3E, 0x8012, "Apple T2 MacBookPro16,2 (j214k)"⟩,
  ⟨"iBridge2,19", "j185ap", 0x22, 0x8012, "Apple T2 iMac20,1 (j185)"⟩,
  ⟨"iBridge2,20", "j185fap", 0x23, 0x8012, "Apple T2 iMac20,2 (j185f)"⟩,
  ⟨"iBridge2,21", "j223ap", 0x3B, 0x8012, "Apple T2 MacBookPro16,3 (j223)"⟩]

/-- Rows 280..282 of the static device database `irecv_devices[]`
(split into chunks to keep elaboration cheap; see `irecv_devices`). -/
def irecv_devices_part7 : List irecv_device := [
  ⟨"iBridge2,22", "j215ap", 0x38, 0x8012, "Apple T2 MacBookPro16,4 (j215)"⟩,
  ⟨"AppleDisplay2,1", "j327ap", 0x22, 0x8030, "Studio Display"⟩,
  ⟨"RealityDevice14,1", "n301ap", 0x42, 0x8112, "Apple Vision Pro"⟩]

/-- The static device database `irecv_devices[]` from libirecovery.c,
transcribed row for row in order (the terminating all-NULL sentinel row is
not represented; the lookup loops, which stop at the sentinel, are modelled
by list traversal). -/
def irecv_devices : List irecv_device :=
  irecv_devices_part0 ++ irecv_devices_part1 ++ irecv_devices_part2 ++ irecv_devices_part3 ++
  irecv_devices_part4 ++ irecv_devices_part5 ++ irecv_devices_part6 ++ irecv_devices_part7


/-- Device lookup by client (`irecv_devices_get_device_by_client`).
The client is passed as its relevant fields: `client->mode`,
`client->device_info.cpid` and `client->device_info.bdid`.  The C function
returns an error code and stores the found row through an out-pointer;
this is modelled as a pair.  The NULL-argument check of the C code
(`!client || !device`) cannot arise in this by-value embedding. -/
def irecv_devices_get_device_by_client (mode cpid bdid : Nat) :
    irecv_error × Option irecv_device :=
  if cpid = 0 then
    (IRECV_E_UNKNOWN_ERROR, none)
  else
    let cpid_match := if mode = IRECV_K_PORT_DFU_MODE then (bdid >>> 8) &&& 0xFFFF else cpid
    let bdid_match := if mode = IRECV_K_PORT_DFU_MODE then (bdid >>> 24) &&& 0xFF else bdid
    match List.find? (fun d => d.chip_id == cpid_match && d.board_id == bdid_match) irecv_devices with
    | some d => (IRECV_E_SUCCESS, some d)
    | none => (IRECV_E_NO_DEVICE, none)

/-- C1, counterexample.  A Port-DFU client (`mode = 0x1881`) with
`cpid = 0x8010 ≠ 0` and `bdid = 0x15060301` does NOT resolve to a database
row: the repacking rule of the code yields `cpid_match = (0x15060301 >>> 8)
&&& 0xFFFF = 0x0603` and `bdid_match = (0x15060301 >>> 24) &&& 0xFF = 0x15`,
and no row of `irecv_devices` has `chip_id = 0x0603`, so the lookup returns
`IRECV_E_NO_DEVICE` — not success with a `chip_id = 0x1506` row as the
claim states (no row with `chip_id = 0x1506` exists at all). -/
theorem C1_counterexample :
    irecv_devices_get_device_by_client IRECV_K_PORT_DFU_MODE 0x8010 0x15060301
      = (IRECV_E_NO_DEVICE, none) := by decide

/-- C1, amended.  In Port-DFU mode the 32-bit BDID is repacked as
`cpid_match = (bdid >>> 8) &&& 0xFFFF` and `bdid_match = (bdid >>> 24) &&& 0xFF`;
for `bdid = 0x15060301` this gives `cpid_match = 0x0603`, `bdid_match = 0x15`,
and for every client with `cpid ≠ 0` the lookup returns `IRECV_E_NO_DEVICE`,
since no database row matches that pair. -/
theorem C1_port_dfu_lookup (cpid : Nat) (h : cpid ≠ 0) :
    (0x15060301 >>> 8) &&& 0xFFFF = 0x0603 ∧
    (0x15060301 >>> 24) &&& 0xFF = 0x15 ∧
    irecv_devices_get_device_by_client IRECV_K_PORT_DFU_MODE cpid 0x15060301
      = (IRECV_E_NO_DEVICE, none) := by
  refine ⟨by decide, by decide, ?_⟩
  unfold irecv_devices_get_device_by_client
  rw [if_neg h, if_pos rfl, if_pos rfl]
  decide

/-- C1, witness for the amended theorem at `cpid = 0x8010`. -/
theorem C1_port_dfu_lookup_witness :
    (0x15060301 >>> 8) &&& 0xFFFF = 0x0603 ∧
    (0x15060301 >>> 24) &&& 0xFF = 0x15 ∧
    irecv_devices_get_device_by_client IRECV_K_PORT_DFU_MODE 0x8010 0x15060301
      = (IRECV_E_NO_DEVICE, none) :=
  C1_port_dfu_lookup 0x8010 (by decide)

/-! ## KIS request header (`irecv_kis_request_init`) -/

/-- Little-endian byte serialisation of a 16-bit value. -/
def le16 (n : Nat) : List Nat := [n % 2^8, n / 2^8 % 2^8]

/-- Little-endian byte serialisation of a 32-bit value. -/
def le32 (n : Nat) : List Nat := [n % 2^8, n / 2^8 % 2^8, n / 2^16 % 2^8, n / 2^24 % 2^8]

/-- Little-endian byte serialisation of a 64-bit value. -/
def le64 (n : Nat) : List Nat := le32 (n % 2^32) ++ le32 (n / 2^32)

/-- The packed KIS request header (`KIS_req_header`, `#pragma pack(1)`):
`u16 sequence, u8 version, u8 portal, u8 argCount, u8 indexLo,
u8 indexHiRplSizeLo, u8 rplSizeHi, u32 reqSize`. -/
structure KIS_req_header where
  sequence : Nat
  version : Nat
  portal : Nat
  argCount : Nat
  indexLo : Nat
  indexHiRplSizeLo : Nat
  rplSizeHi : Nat
  reqSize : Nat
deriving DecidableEq, Repr

/-- Byte layout of the packed 12-byte `KIS_req_header` as transmitted on the
KIS bulk endpoints: multi-byte fields little-endian, matching the packed
struct on the little-endian hosts the wire protocol targets. -/
def KIS_req_header_bytes (h : KIS_req_header) : List Nat :=
  le16 h.sequence ++
    [h.version, h.portal, h.argCount, h.indexLo, h.indexHiRplSizeLo, h.rplSizeHi] ++
    le32 h.reqSize

/-- Value of `UINT8_MAX`. -/
def UINT8_MAX : Nat := 0xFF

/-- Value of `UINT32_MAX`. -/
def UINT32_MAX : Nat := 0xFFFFFFFF

/-- Embedding of `irecv_kis_request_init`.  The C function fills a header
through a pointer and returns an error code; this is modelled as a pair.
The `(uint8_t)` and `(uint32_t)` casts of the assignments are rendered as
`% 256` / `% 2^32`. -/
def irecv_kis_request_init (portal index argCount payloadSize rplWords : Nat) :
    irecv_error × Option KIS_req_header :=
  if argCount > UINT8_MAX then (IRECV_E_INVALID_INPUT, none)
  else if index ≥ 2^10 then (IRECV_E_INVALID_INPUT, none)
  else if rplWords ≥ 2^14 then (IRECV_E_INVALID_INPUT, none)
  else
    let reqSize := payloadSize + (argCount <<< 2)
    if reqSize > UINT32_MAX then (IRECV_E_INVALID_INPUT, none)
    else
      (IRECV_E_SUCCESS, some {
        sequence := 0
        version := 0xA0
        portal := portal
        argCount := argCount % 256
        indexLo := (index &&& 0xFF) % 256
        indexHiRplSizeLo := (((index >>> 8) &&& 0x3) ||| ((rplWords <<< 2) &&& 0xFC)) % 256
        rplSizeHi := ((rplWords >>> 6) &&& 0xFF) % 256
        reqSize := reqSize % 2^32 })

/-- Helper: masking with `0xFF` is reduction mod 256. -/
theorem and_0xFF_eq_mod (x : Nat) : x &&& 0xFF = x % 256 := by
  have h : (0xFF : Nat) = 2^8 - 1 := by norm_num
  rw [h, Nat.and_pow_two_sub_one_eq_mod]

/-- Helper: masking with `0x3` is reduction mod 4. -/
theorem and_0x3_eq_mod (x : Nat) : x &&& 0x3 = x % 4 := by
  have h : (0x3 : Nat) = 2^2 - 1 := by norm_num
  rw [h, Nat.and_pow_two_sub_one_eq_mod]

/-- Helper: `(w <<< 2) &&& 0xFC` keeps the low six bits of `w`, shifted. -/
theorem shiftLeft2_and_0xFC (w : Nat) : (w <<< 2) &&& 0xFC = w % 64 * 4 := by
  have h1 : (w <<< 2) &&& 0xFF = (w <<< 2) &&& 0xFC ||| (w <<< 2) &&& 0x3 := by
    rw [← Nat.and_or_distrib_left]
    have h0 : (0xFC ||| 0x3 : Nat) = 0xFF := by decide
    rw [h0]
  have h2 : (w <<< 2) &&& 0x3 = 0 := by
    rw [and_0x3_eq_mod, Nat.shiftLeft_eq]
    omega
  have h3 : (w <<< 2) &&& 0xFF = w % 64 * 4 := by
    rw [and_0xFF_eq_mod, Nat.shiftLeft_eq]
    omega
  rw [h2, Nat.or_zero] at h1
  rw [← h1, h3]

/-- Helper: a value below 4 or-ed with a multiple of 4 is their sum. -/
theorem small_or_mul4 (a c : Nat) (h : a < 4) : a ||| c * 4 = c * 4 + a := by
  have h2 := Nat.mul_add_lt_is_or (i := 2) (b := a) h c
  rw [Nat.or_comm, show c * 4 = 2^2 * c by ring]
  omega

/-- C5, counterexample.  At `portal = 0, index = 0, argCount = 0,
payloadSize = 2^32, rplWords = 0` the code returns `IRECV_E_INVALID_INPUT`
(the guard is `reqSize > UINT32_MAX`, i.e. `payloadSize + 4·argCount ≥ 2^32`),
although none of the claim's conditions holds — in particular the claim's
bound `payloadSize + 4·argCount > 2^32` is not met, so the claim demands
success here. -/
theorem C5_counterexample :
    irecv_kis_request_init 0 0 0 (2^32) 0 = (IRECV_E_INVALID_INPUT, none) ∧
    ¬ ((0:Nat) > 255 ∨ (0:Nat) ≥ 2^10 ∨ (0:Nat) ≥ 2^14 ∨ 2^32 + 4 * 0 > 2^32) := by
  constructor
  · decide
  · omega

/-- C5, amended.  `irecv_kis_request_init` returns invalid-input exactly when
`argCount > 255`, or `index ≥ 2^10`, or `replyWords ≥ 2^14`, or
`payloadSize + 4·argCount > 2^32 − 1` (the code's guard is
`reqSize > UINT32_MAX`, one less than the claim's `> 2^32`); otherwise it
returns success and fills the packed header — which is 12 bytes, not 16 —
with `version = 0xA0`, the given portal and argCount, the 10-bit index split
as `indexLo` plus the low 2 bits of the next byte, the 14-bit reply-words
count in the upper 6 bits of that byte plus the following byte, and
`reqSize = payloadSize + 4·argCount` as a 32-bit little-endian value. -/
theorem C5_kis_request_init :
    (∀ portal index argCount payloadSize rplWords : Nat,
      (argCount > 255 ∨ index ≥ 2^10 ∨ rplWords ≥ 2^14 ∨
        payloadSize + 4 * argCount > 2^32 - 1) →
      irecv_kis_request_init portal index argCount payloadSize rplWords
        = (IRECV_E_INVALID_INPUT, none)) ∧
    (∀ portal index argCount payloadSize rplWords : Nat,
      argCount ≤ 255 → index < 2^10 → rplWords < 2^14 →
      payloadSize + 4 * argCount ≤ 2^32 - 1 →
      ∃ hdr : KIS_req_header,
        irecv_kis_request_init portal index argCount payloadSize rplWords
          = (IRECV_E_SUCCESS, some hdr) ∧
        hdr.version = 0xA0 ∧
        hdr.portal = portal ∧
        hdr.argCount = argCount ∧
        hdr.indexLo + 2^8 * (hdr.indexHiRplSizeLo % 4) = index ∧
        hdr.indexHiRplSizeLo / 4 + 2^6 * hdr.rplSizeHi = rplWords ∧
        hdr.reqSize = payloadSize + 4 * argCount ∧
        KIS_req_header_bytes hdr
          = le16 0 ++ [0xA0, portal, argCount, hdr.indexLo, hdr.indexHiRplSizeLo, hdr.rplSizeHi]
              ++ le32 (payloadSize + 4 * argCount) ∧
        (KIS_req_header_bytes hdr).length = 12) := by
  constructor
  · intro portal index argCount payloadSize rplWords h
    unfold irecv_kis_request_init
    rcases Nat.lt_or_ge 255 argCount with ha | ha
    · rw [if_pos (by simpa [UINT8_MAX] using ha)]
    · rw [if_neg (by simp [UINT8_MAX]; omega)]
      rcases Nat.lt_or_ge index (2^10) with hi | hi
      · rw [if_neg (by omega)]
        rcases Nat.lt_or_ge rplWords (2^14) with hr | hr
        · rw [if_neg (by omega)]
          have hq : payloadSize + (argCount <<< 2) > UINT32_MAX := by
            rw [Nat.shiftLeft_eq]
            simp only [UINT32_MAX]
            omega
          simp only [hq, if_pos]
        · rw [if_pos (by omega)]
      · rw [if_pos (by omega)]
  · intro portal index argCount payloadSize rplWords ha hi hr hq
    unfold irecv_kis_request_init
    rw [if_neg (by simp [UINT8_MAX]; omega), if_neg (by omega), if_neg (by omega),
        if_neg (by rw [Nat.shiftLeft_eq]; simp only [UINT32_MAX]; omega)]
    refine ⟨_, rfl, rfl, rfl, ?_, ?_, ?_, ?_, ?_, ?_⟩
    · dsimp only
      exact Nat.mod_eq_of_lt (by omega)
    · dsimp only
      rw [shiftLeft2_and_0xFC]
      simp only [Nat.shiftRight_eq_div_pow, and_0xFF_eq_mod, and_0x3_eq_mod]
      rw [small_or_mul4 _ _ (by omega)]
      omega
    · dsimp only
      rw [shiftLeft2_and_0xFC]
      simp only [Nat.shiftRight_eq_div_pow, and_0xFF_eq_mod, and_0x3_eq_mod]
      rw [small_or_mul4 _ _ (by omega)]
      omega
    · dsimp only
      rw [Nat.shiftLeft_eq]
      omega
    · dsimp only
      have e1 : argCount % 256 = argCount := Nat.mod_eq_of_lt (by omega)
      have e2 : (payloadSize + argCount <<< 2) % 2^32 = payloadSize + 4 * argCount := by
        rw [Nat.shiftLeft_eq]
        omega
      simp only [KIS_req_header_bytes, e1, e2]
    · rfl

/-- C5, witness for the amended theorem: the invalid branch at
`argCount = 256` and the success branch at
`(portal, index, argCount, payloadSize, rplWords) = (16, 0x10D, 3, 0x4000, 5)`. -/
theorem C5_kis_request_init_witness :
    irecv_kis_request_init 1 0 256 0 0 = (IRECV_E_INVALID_INPUT, none) ∧
    (∃ hdr : KIS_req_header,
      irecv_kis_request_init 16 0x10D 3 0x4000 5 = (IRECV_E_SUCCESS, some hdr) ∧
      hdr.version = 0xA0 ∧
      hdr.portal = 16 ∧
      hdr.argCount = 3 ∧
      hdr.indexLo + 2^8 * (hdr.indexHiRplSizeLo % 4) = 0x10D ∧
      hdr.indexHiRplSizeLo / 4 + 2^6 * hdr.rplSizeHi = 5 ∧
      hdr.reqSize = 0x4000 + 4 * 3 ∧
      KIS_req_header_bytes hdr
        = le16 0 ++ [0xA0, 16, 3, hdr.indexLo, hdr.indexHiRplSizeLo, hdr.rplSizeHi]
            ++ le32 (0x4000 + 4 * 3) ∧
      (KIS_req_header_bytes hdr).length = 12) :=
  ⟨C5_kis_request_init.1 1 0 256 0 0 (by omega),
   C5_kis_request_init.2 16 0x10D 3 0x4000 5 (by omega) (by omega) (by omega) (by omega)⟩

/-! ## Identity parser and nonce extractor -/

/-- C whitespace class (`isspace`), as skipped by `sscanf` conversions. -/
def isCSpace (c : Char) : Bool :=
  c = ' ' || c = '\t' || c = '\n' || c = '\x0b' || c = '\x0c' || c = '\r'

/-- Hexadecimal digit class (`isxdigit`). -/
def isxdigit (c : Char) : Bool :=
  c.isDigit || ('a' ≤ c && c ≤ 'f') || ('A' ≤ c && c ≤ 'F')

/-- Numeric value of a hexadecimal digit. -/
def hex_digit_val (c : Char) : Nat :=
  if c.isDigit then c.toNat - 48
  else if 'a' ≤ c then c.toNat - 87
  else c.toNat - 55

/-- Embedding of `strstr`: the suffix of `hay` starting at the first
occurrence of `needle`, or `none`. -/
def strstr (hay needle : List Char) : Option (List Char) :=
  if needle.isPrefixOf hay then some hay
  else match hay with
    | [] => none
    | _ :: t => strstr t needle

/-- Behaviour of a `sscanf` `%x` conversion at the given position: skip
whitespace, then read a maximal non-empty run of hex digits (the C
conversion would also accept an optional `0x` prefix, which never occurs in
the serial strings at issue; integer overflow, implementation-defined in C,
does not arise for the inputs considered — the stored fields additionally
truncate to their width). -/
def scan_hex (s : List Char) : Option Nat :=
  let s1 := s.dropWhile isCSpace
  let ds := s1.takeWhile isxdigit
  if ds.isEmpty then none
  else some (ds.foldl (fun a c => a * 16 + hex_digit_val c) 0)

/-- Behaviour of a `sscanf` `%s` conversion: skip whitespace, then read a
maximal run of non-whitespace characters (empty at end of input, in which
case the C target buffer keeps its previous `""` content — same result). -/
def scan_word (s : List Char) : List Char :=
  (s.dropWhile isCSpace).takeWhile (fun c => !(isCSpace c))

/-- Truncation at the last `]`, modelling `ptr = strrchr(tmp, ']'); if (ptr)
*ptr = 0;`. -/
def strrchr_cut (s : List Char) : List Char :=
  match s.reverse.findIdx? (· = ']') with
  | none => s
  | some i => s.take (s.length - 1 - i)

/-- Parse of one hex-integer tag of `irecv_load_device_info_from_iboot_string`:
`ptr = strstr(iboot_string, tag); if (ptr) sscanf(ptr, "TAG:%x", &field);`
(the literal part of the format always matches at `ptr`). -/
def hex_field (serial tag : List Char) : Option Nat :=
  match strstr serial tag with
  | none => none
  | some suf => scan_hex (suf.drop tag.length)

/-- Parse of one bracketed-string tag:
`ptr = strstr(iboot_string, "TAG:["); if (ptr) { sscanf(ptr, "TAG:[%s]", tmp);
ptr = strrchr(tmp, ']'); if (ptr) *ptr = 0; field = strdup(tmp); }`. -/
def bracket_field (serial tag : List Char) : Option (List Char) :=
  match strstr serial tag with
  | none => none
  | some suf => some (strrchr_cut (scan_word (suf.drop tag.length)))

/-- The parsed identity record (`struct irecv_device_info`), without the
nonce buffers, which are filled by the separate nonce extractor. -/
structure irecv_device_info where
  cpid : Nat
  cprv : Nat
  cpfm : Nat
  scep : Nat
  bdid : Nat
  ecid : Nat
  ibfl : Nat
  pid : Nat
  srnm : Option (List Char)
  imei : Option (List Char)
  srtg : Option (List Char)
  serial_string : List Char
deriving DecidableEq, Repr

/-- Embedding of `irecv_load_device_info_from_iboot_string`: the record is
zero-initialised (`memset`), then each tag found by `strstr` is parsed in
place.  `u32` fields truncate with `% 2^32`; `BDID` is parsed as a `u64`
and then cast to `unsigned int`; `ECID` is a `u64`. -/
def irecv_load_device_info_from_iboot_string (mode : Nat) (isKIS : Bool)
    (iboot_string : List Char) : irecv_device_info :=
  { cpid := (hex_field iboot_string "CPID:".toList).getD 0 % 2^32
    cprv := (hex_field iboot_string "CPRV:".toList).getD 0 % 2^32
    cpfm := (hex_field iboot_string "CPFM:".toList).getD 0 % 2^32
    scep := (hex_field iboot_string "SCEP:".toList).getD 0 % 2^32
    bdid := (hex_field iboot_string "BDID:".toList).getD 0 % 2^64 % 2^32
    ecid := (hex_field iboot_string "ECID:".toList).getD 0 % 2^64
    ibfl := (hex_field iboot_string "IBFL:".toList).getD 0 % 2^32
    pid := if isKIS then KIS_PRODUCT_ID else mode
    srnm := bracket_field iboot_string "SRNM:[".toList
    imei := bracket_field iboot_string "IMEI:[".toList
    srtg := bracket_field iboot_string "SRTG:[".toList
    serial_string := iboot_string }

/-- The tag-scanning do/while loop of `irecv_copy_nonce_with_tag_from_buffer`.
Returns, on a tag match, the pair of `nonce_string` (the suffix after the
matched colon) and `nlen` (already halved, as in the C code); `none` when
the loop breaks without a match (`nonce_scan_go` is the loop body with an
explicit iteration bound, `nonce_scan_loop` below starts it).  The C
pointers `p`, `colon`, `space` are
rendered as positions in the current suffix `s`: `colon = strchr(p, ':')`
is the first colon of `s`, the guard `colon - taglen < p` is `j < taglen`,
`strncmp(colon - taglen, tag, taglen)` compares `taglen` characters before
the colon with the tag, and `space = strchr(colon, ' ')` is the first space
at or after the colon. -/
def nonce_scan_go (tag : List Char) : Nat → List Char → Option (List Char × Nat)
  | 0, _ => none
  | fuel + 1, s =>
    match s.findIdx? (· = ':') with
    | none => none
    | some j =>
      if j < tag.length then none
      else if (s.drop (j - tag.length)).take tag.length = tag then
        let p := s.drop (j + 1)
        match (s.drop j).findIdx? (· = ' ') with
        | none => some (p, p.length / 2)
        | some js => some (p, (js - 1) / 2)
      else
        match (s.drop j).findIdx? (· = ' ') with
        | none => none
        | some js => nonce_scan_go tag fuel (s.drop (j + js + 1))

/-- The scanning loop started on the whole buffer.  Every iteration of the
C loop advances the scan pointer by at least one character, so `length + 1`
iterations always suffice; the explicit bound keeps the recursion
structural (and hence kernel-computable), and the out-of-fuel branch is
unreachable. -/
def nonce_scan_loop (tag s : List Char) : Option (List Char × Nat) :=
  nonce_scan_go tag (s.length + 1) s

/-- Behaviour of one `sscanf(nonce_string + 2 i, "%02X", &val)` read: skip
whitespace, then read one or two hex digits (at least one required; the
second is taken only if it is itself a hex digit). -/
def scan_hex_pair (s : List Char) : Option Nat :=
  match s.dropWhile isCSpace with
  | [] => none
  | [c] => if isxdigit c then some (hex_digit_val c) else none
  | c1 :: c2 :: _ =>
    if isxdigit c1 then
      if isxdigit c2 then some (16 * hex_digit_val c1 + hex_digit_val c2)
      else some (hex_digit_val c1)
    else none

/-- The hex-pair decode loop of `irecv_copy_nonce_with_tag_from_buffer`:
byte `i` is read at offset `2 i` of the nonce string; a failed read breaks
the loop and discards the whole nonce (`i != nlen`). -/
def nonce_decode_go (ns : List Char) (i : Nat) : Nat → Option (List Nat)
  | 0 => some []
  | n + 1 =>
    match scan_hex_pair (ns.drop (2 * i)) with
    | none => none
    | some v =>
      match nonce_decode_go ns (i + 1) n with
      | none => none
      | some vs => some (v :: vs)

/-- Embedding of `irecv_copy_nonce_with_tag_from_buffer`: scan for the tag,
then decode `nlen` hex pairs; `none` when no nonce is stored (tag not
found, `nlen == 0`, or a decode failure). -/
def irecv_copy_nonce_with_tag_from_buffer (tag buf : List Char) : Option (List Nat) :=
  match nonce_scan_loop tag buf with
  | none => none
  | some (ns, nlen) =>
    if nlen = 0 then none
    else nonce_decode_go ns 0 nlen

/-- The example serial string of the specification's scenario 1. -/
def serial_C3 : List Char :=
  ("CPID:8010 CPRV:11 CPFM:03 SCEP:01 BDID:0E ECID:001122334455AABB IBFL:1C " ++
   "SRNM:[ABCDE12345] IMEI:[012345678901234] SRTG:[iBoot-3401.0.0.1.16] " ++
   "NONC: 0102AABB SNON: DEADBEEF").toList

set_option maxRecDepth 4000 in
/-- C3, counterexample.  On the claim's serial string the nonce extractor
finds the `NONC` tag, but `space = strchr(colon, ' ')` is the blank
immediately after the colon, so `nlen = space - (colon+1) = 0` and no nonce
is stored — the claim's `ap_nonce = 01 02 AA BB` is wrong. -/
theorem C3_counterexample :
    irecv_copy_nonce_with_tag_from_buffer "NONC".toList serial_C3 = none := by decide

set_option maxRecDepth 4000 in
/-- C3, amended.  Feeding the serial string to the identity parser yields
`cpid=0x8010, cprv=0x11, cpfm=0x03, scep=0x01, bdid=0x0E,
ecid=0x001122334455AABB, ibfl=0x1C, srnm="ABCDE12345",
imei="012345678901234", srtg="iBoot-3401.0.0.1.16"`, but the nonce
extractor stores neither an AP nonce nor a SEP nonce: in `NONC: 0102AABB`
and `SNON: DEADBEEF` the character after the colon is a space, so the
computed hex-run length is zero and the extraction is abandoned. -/
theorem C3_parse_identity :
    (irecv_load_device_info_from_iboot_string IRECV_K_DFU_MODE false serial_C3).cpid = 0x8010 ∧
    (irecv_load_device_info_from_iboot_string IRECV_K_DFU_MODE false serial_C3).cprv = 0x11 ∧
    (irecv_load_device_info_from_iboot_string IRECV_K_DFU_MODE false serial_C3).cpfm = 0x03 ∧
    (irecv_load_device_info_from_iboot_string IRECV_K_DFU_MODE false serial_C3).scep = 0x01 ∧
    (irecv_load_device_info_from_iboot_string IRECV_K_DFU_MODE false serial_C3).bdid = 0x0E ∧
    (irecv_load_device_info_from_iboot_string IRECV_K_DFU_MODE false serial_C3).ecid
      = 0x001122334455AABB ∧
    (irecv_load_device_info_from_iboot_string IRECV_K_DFU_MODE false serial_C3).ibfl = 0x1C ∧
    (irecv_load_device_info_from_iboot_string IRECV_K_DFU_MODE false serial_C3).srnm
      = some "ABCDE12345".toList ∧
    (irecv_load_device_info_from_iboot_string IRECV_K_DFU_MODE false serial_C3).imei
      = some "012345678901234".toList ∧
    (irecv_load_device_info_from_iboot_string IRECV_K_DFU_MODE false serial_C3).srtg
      = some "iBoot-3401.0.0.1.16".toList ∧
    irecv_copy_nonce_with_tag_from_buffer "NONC".toList serial_C3 = none ∧
    irecv_copy_nonce_with_tag_from_buffer "SNON".toList serial_C3 = none := by
  refine ⟨?_, ?_, ?_, ?_, ?_, ?_, ?_, ?_, ?_, ?_, ?_, ?_⟩ <;> decide

set_option maxRecDepth 4000 in
/-- C4, counterexample.  With tag `NONC` and buffer `XNONC:11223344` the
extractor does store a nonce (`11 22 33 44`): the code only requires the
tag to lie at or after the scan position (`colon - taglen < p` fails the
match, everything else matches), it never inspects the character before
the tag, so the claim's "preceding character must be a space" is wrong. -/
theorem C4_counterexample :
    irecv_copy_nonce_with_tag_from_buffer "NONC".toList "XNONC:11223344".toList
      = some [0x11, 0x22, 0x33, 0x44] := by decide

/-- Helper for C4: whenever the scanning loop succeeds, the tag occurs
literally immediately before a colon somewhere in the scanned suffix. -/
theorem nonce_scan_go_tag_occurs (tag : List Char) :
    ∀ (fuel : Nat) (s : List Char) (r : List Char × Nat),
      nonce_scan_go tag fuel s = some r →
      ∃ i rest, s.drop i = tag ++ ':' :: rest := by
  intro fuel
  induction fuel with
  | zero =>
    intro s r h
    simp [nonce_scan_go] at h
  | succ n ih =>
    intro s r h
    rw [nonce_scan_go] at h
    rcases hc : s.findIdx? (· = ':') with _ | j <;> rw [hc] at h
    · simp at h
    · dsimp only at h
      rcases Nat.lt_or_ge j tag.length with hj | hj
      · rw [if_pos hj] at h
        simp at h
      · rw [if_neg (Nat.not_lt.mpr hj)] at h
        by_cases ht : (s.drop (j - tag.length)).take tag.length = tag
        · obtain ⟨hlt, hp, -⟩ := List.findIdx?_eq_some_iff_getElem.mp hc
          simp only [decide_eq_true_eq] at hp
          refine ⟨j - tag.length, s.drop (j + 1), ?_⟩
          have e1 : s.drop (j - tag.length)
              = (s.drop (j - tag.length)).take tag.length
                ++ (s.drop (j - tag.length)).drop tag.length :=
            (List.take_append_drop _ _).symm
          rw [e1, ht, List.drop_drop]
          have e2 : j - tag.length + tag.length = j := by omega
          rw [e2, List.drop_eq_getElem_cons hlt, hp]
        · rw [if_neg ht] at h
          rcases hs : (s.drop j).findIdx? (· = ' ') with _ | js <;> rw [hs] at h
          · simp at h
          · obtain ⟨i, rest, ho⟩ := ih _ _ h
            refine ⟨j + js + 1 + i, rest, ?_⟩
            rw [← ho, List.drop_drop]

/-- C4, amended.  For every buffer and tag, the nonce extractor extracts a
nonce only at an occurrence where the `taglen` characters immediately
before a colon literally equal the tag; contrary to the claim, the
character preceding the tag is never inspected — it need not be a space nor
the start of the buffer: for tag `NONC` and buffer `XNONC:11223344` the
nonce `11 22 33 44` is extracted. -/
theorem C4_nonce_tag_occurrence :
    (∀ (tag buf : List Char) (r : List Nat),
        irecv_copy_nonce_with_tag_from_buffer tag buf = some r →
        ∃ i rest, buf.drop i = tag ++ ':' :: rest) ∧
    irecv_copy_nonce_with_tag_from_buffer "NONC".toList "XNONC:11223344".toList
      = some [0x11, 0x22, 0x33, 0x44] := by
  constructor
  · intro tag buf r h
    unfold irecv_copy_nonce_with_tag_from_buffer at h
    rcases hl : nonce_scan_loop tag buf with _ | p <;> rw [hl] at h
    · simp at h
    · exact nonce_scan_go_tag_occurs tag _ _ _ hl
  · decide

/-- C4, witness: the general part of the amended theorem, instantiated at
the concrete extraction of the second part, exhibits the `NONC:` occurrence
inside `XNONC:11223344`. -/
theorem C4_nonce_tag_occurrence_witness :
    ∃ i rest, "XNONC:11223344".toList.drop i = "NONC".toList ++ ':' :: rest :=
  C4_nonce_tag_occurrence.1 _ _ _ C4_nonce_tag_occurrence.2

/-! ## Upload engine (`irecv_send_buffer` and the KIS upload path) -/

/-- Observable actions of the upload engine and the command sender: USB
control transfers (`data` is the payload written for host-to-device
transfers, and the device-supplied reply for device-to-host transfers;
`wLength` is the requested transfer length), USB bulk transfers, sleeps,
device resets, and invocations of the pre/post command callbacks. -/
inductive usb_event where
  | control (bmRequestType bRequest wValue wIndex : Nat) (data : List Nat) (wLength : Nat)
  | bulk (endpoint : Nat) (data : List Nat) (length : Nat)
  | sleep (seconds : Nat)
  | reset
  | cb_precommand
  | cb_postcommand
deriving DecidableEq, Repr

/-- Device/transport behaviour that the engine observes: `xfer_ret k sz` is
the byte count reported by the `k`-th host-to-device data transfer (control
or bulk) when `sz` bytes were requested; `dfu_state_reply` is the reply to
the DFU GETSTATE query `(0xA1, 5)`; `status_reply k` is the 6-byte reply to
the `k`-th DFU GETSTATUS query `(0xA1, 3)`. -/
structure usb_env where
  xfer_ret : Nat → Nat → Nat
  dfu_state_reply : List Nat
  status_reply : Nat → List Nat

/-- The fields of `struct irecv_client_private` that the claims depend on.
`valid_context` models `check_context` (non-null client with non-null
handle); the callbacks are `none` when unset, `some b` for a callback whose
return value is truthy iff `b`. -/
structure irecv_client where
  mode : Nat
  isKIS : Bool
  valid_context : Bool
  precommand_callback : Option Bool
  postcommand_callback : Option Bool
deriving Repr

/-- Upload option flag `IRECV_SEND_OPT_DFU_NOTIFY_FINISH` (public header;
value from the specification, part of the ABI). -/
def IRECV_SEND_OPT_DFU_NOTIFY_FINISH : Nat := 1

/-- Upload option flag `IRECV_SEND_OPT_DFU_FORCE_ZLP` (see
`IRECV_SEND_OPT_DFU_NOTIFY_FINISH`). -/
def IRECV_SEND_OPT_DFU_FORCE_ZLP : Nat := 2

/-- Upload option flag `IRECV_SEND_OPT_DFU_SMALL_PKT` (see
`IRECV_SEND_OPT_DFU_NOTIFY_FINISH`). -/
def IRECV_SEND_OPT_DFU_SMALL_PKT : Nat := 4

/-- The table `crc32_lookup_t1[256]` of libirecovery.c, transcribed
entry for entry. -/
def crc32_lookup_t1 : List Nat := [
  0x00000000, 0x77073096, 0xEE0E612C, 0x990951BA,
  0x076DC419, 0x706AF48F, 0xE963A535, 0x9E6495A3,
  0x0EDB8832, 0x79DCB8A4, 0xE0D5E91E, 0x97D2D988,
  0x09B64C2B, 0x7EB17CBD, 0xE7B82D07, 0x90BF1D91,
  0x1DB71064, 0x6AB020F2, 0xF3B97148, 0x84BE41DE,
  0x1ADAD47D, 0x6DDDE4EB, 0xF4D4B551, 0x83D385C7,
  0x136C9856, 0x646BA8C0, 0xFD62F97A, 0x8A65C9EC,
  0x14015C4F, 0x63066CD9, 0xFA0F3D63, 0x8D080DF5,
  0x3B6E20C8, 0x4C69105E, 0xD56041E4, 0xA2677172,
  0x3C03E4D1, 0x4B04D447, 0xD20D85FD, 0xA50AB56B,
  0x35B5A8FA, 0x42B2986C, 0xDBBBC9D6, 0xACBCF940,
  0x32D86CE3, 0x45DF5C75, 0xDCD60DCF, 0xABD13D59,
  0x26D930AC, 0x51DE003A, 0xC8D75180, 0xBFD06116,
  0x21B4F4B5, 0x56B3C423, 0xCFBA9599, 0xB8BDA50F,
  0x2802B89E, 0x5F058808, 0xC60CD9B2, 0xB10BE924,
  0x2F6F7C87, 0x58684C11, 0xC1611DAB, 0xB6662D3D,
  0x76DC4190, 0x01DB7106, 0x98D220BC, 0xEFD5102A,
  0x71B18589, 0x06B6B51F, 0x9FBFE4A5, 0xE8B8D433,
  0x7807C9A2, 0x0F00F934, 0x9609A88E, 0xE10E9818,
  0x7F6A0DBB, 0x086D3D2D, 0x91646C97, 0xE6635C01,
  0x6B6B51F4, 0x1C6C6162, 0x856530D8, 0xF262004E,
  0x6C0695ED, 0x1B01A57B, 0x8208F4C1, 0xF50FC457,
  0x65B0D9C6, 0x12B7E950, 0x8BBEB8EA, 0xFCB9887C,
  0x62DD1DDF, 0x15DA2D49, 0x8CD37CF3, 0xFBD44C65,
  0x4DB26158, 0x3AB551CE, 0xA3BC0074, 0xD4BB30E2,
  0x4ADFA541, 0x3DD895D7, 0xA4D1C46D, 0xD3D6F4FB,
  0x4369E96A, 0x346ED9FC, 0xAD678846, 0xDA60B8D0,
  0x44042D73, 0x33031DE5, 0xAA0A4C5F, 0xDD0D7CC9,
  0x5005713C, 0x270241AA, 0xBE0B1010, 0xC90C2086,
  0x5768B525, 0x206F85B3, 0xB966D409, 0xCE61E49F,
  0x5EDEF90E, 0x29D9C998, 0xB0D09822, 0xC7D7A8B4,
  0x59B33D17, 0x2EB40D81, 0xB7BD5C3B, 0xC0BA6CAD,
  0xEDB88320, 0x9ABFB3B6, 0x03B6E20C, 0x74B1D29A,
  0xEAD54739, 0x9DD277AF, 0x04DB2615, 0x73DC1683,
  0xE3630B12, 0x94643B84, 0x0D6D6A3E, 0x7A6A5AA8,
  0xE40ECF0B, 0x9309FF9D, 0x0A00AE27, 0x7D079EB1,
  0xF00F9344, 0x8708A3D2, 0x1E01F268, 0x6906C2FE,
  0xF762575D, 0x806567CB, 0x196C3671, 0x6E6B06E7,
  0xFED41B76, 0x89D32BE0, 0x10DA7A5A, 0x67DD4ACC,
  0xF9B9DF6F, 0x8EBEEFF9, 0x17B7BE43, 0x60B08ED5,
  0xD6D6A3E8, 0xA1D1937E, 0x38D8C2C4, 0x4FDFF252,
  0xD1BB67F1, 0xA6BC5767, 0x3FB506DD, 0x48B2364B,
  0xD80D2BDA, 0xAF0A1B4C, 0x36034AF6, 0x41047A60,
  0xDF60EFC3, 0xA867DF55, 0x316E8EEF, 0x4669BE79,
  0xCB61B38C, 0xBC66831A, 0x256FD2A0, 0x5268E236,
  0xCC0C7795, 0xBB0B4703, 0x220216B9, 0x5505262F,
  0xC5BA3BBE, 0xB2BD0B28, 0x2BB45A92, 0x5CB36A04,
  0xC2D7FFA7, 0xB5D0CF31, 0x2CD99E8B, 0x5BDEAE1D,
  0x9B64C2B0, 0xEC63F226, 0x756AA39C, 0x026D930A,
  0x9C0906A9, 0xEB0E363F, 0x72076785, 0x05005713,
  0x95BF4A82, 0xE2B87A14, 0x7BB12BAE, 0x0CB61B38,
  0x92D28E9B, 0xE5D5BE0D, 0x7CDCEFB7, 0x0BDBDF21,
  0x86D3D2D4, 0xF1D4E242, 0x68DDB3F8, 0x1FDA836E,
  0x81BE16CD, 0xF6B9265B, 0x6FB077E1, 0x18B74777,
  0x88085AE6, 0xFF0F6A70, 0x66063BCA, 0x11010B5C,
  0x8F659EFF, 0xF862AE69, 0x616BFFD3, 0x166CCF45,
  0xA00AE278, 0xD70DD2EE, 0x4E048354, 0x3903B3C2,
  0xA7672661, 0xD06016F7, 0x4969474D, 0x3E6E77DB,
  0xAED16A4A, 0xD9D65ADC, 0x40DF0B66, 0x37D83BF0,
  0xA9BCAE53, 0xDEBB9EC5, 0x47B2CF7F, 0x30B5FFE9,
  0xBDBDF21C, 0xCABAC28A, 0x53B39330, 0x24B4A3A6,
  0xBAD03605, 0xCDD70693, 0x54DE5729, 0x23D967BF,
  0xB3667A2E, 0xC4614AB8, 0x5D681B02, 0x2A6F2B94,
  0xB40BBE37, 0xC30C8EA1, 0x5A05DF1B, 0x2D02EF8D]

/-- The step macro `crc32_step(a,b)`:
`a = crc32_lookup_t1[(a & 0xFF) ^ (unsigned char)b] ^ (a >> 8)`. -/
def crc32_step (a b : Nat) : Nat :=
  crc32_lookup_t1.getD ((a &&& 0xFF) ^^^ (b % 256)) 0 ^^^ (a >>> 8)

/-- A `for`-loop of `crc32_step` over a byte buffer. -/
def crc32_over (h1 : Nat) (bytes : List Nat) : Nat :=
  bytes.foldl crc32_step h1

/-- The 12-byte DFU trailer magic `dfu_xbuf`. -/
def dfu_xbuf : List Nat := [0xff, 0xff, 0xff, 0xff, 0xac, 0x05, 0x00, 0x01, 0x55, 0x46, 0x44, 0x10]

/-- The four little-endian bytes of the raw CRC register appended to the
trailer (`newbuf[size+12..15]`). -/
def crc_bytes (h1 : Nat) : List Nat :=
  [h1 &&& 0xFF, (h1 >>> 8) &&& 0xFF, (h1 >>> 16) &&& 0xFF, (h1 >>> 24) &&& 0xFF]

/-- Embedding of `irecv_get_status`, given the 6-byte reply the device
returns for the control transfer `(0xA1, 3, 0, 0, buffer, 6)`: if fewer or
more than 6 bytes are transferred the status is 0 and the result is
`IRECV_E_USB_STATUS`; otherwise the status is byte 4 of the reply.  (The
`check_context` guard of the C function is handled by its callers here,
which only run with a valid context.) -/
def irecv_get_status (reply : List Nat) : irecv_error × Nat :=
  if reply.length ≠ 6 then (IRECV_E_USB_STATUS, 0)
  else (IRECV_E_SUCCESS, reply.getD 4 0)

/-- The status retry loop of `irecv_send_buffer`
(`while (retry++ < 20) { irecv_get_status(client, &status); if (status == 5)
break; sleep(1); }`), started with 20 rounds: `ks` is the ordinal of the
next GETSTATUS transfer, `status` the current value of the status variable;
returns the final status, the next ordinal and the events.  The error
return of `irecv_get_status` is ignored inside the loop, exactly as in the
C code (a failed read leaves status 0). -/
def dfu_status_retry (env : usb_env) : Nat → Nat → Nat → Nat × Nat × List usb_event
  | ks, status, 0 => (status, ks, [])
  | ks, _, n + 1 =>
    let reply := env.status_reply ks
    let ev := usb_event.control 0xA1 3 0 0 reply 6
    let st := (irecv_get_status reply).2
    if st = 5 then (5, ks + 1, [ev])
    else
      match dfu_status_retry env (ks + 1) st n with
      | (s2, ks2, evs) => (s2, ks2, ev :: usb_event.sleep 1 :: evs)

/-- The per-packet status check of the DFU upload loop (`error =
irecv_get_status(...); if (error) return error; if (status != 5) { retry
loop; if (status != 5) return IRECV_E_USB_UPLOAD; }`). -/
def dfu_packet_status_check (env : usb_env) (ks : Nat) : irecv_error × Nat × List usb_event :=
  let reply := env.status_reply ks
  let ev := usb_event.control 0xA1 3 0 0 reply 6
  let r := irecv_get_status reply
  if r.1 ≠ IRECV_E_SUCCESS then (r.1, ks + 1, [ev])
  else if r.2 ≠ 5 then
    match dfu_status_retry env (ks + 1) r.2 20 with
    | (s2, ks2, evs) =>
      if s2 ≠ 5 then (IRECV_E_USB_UPLOAD, ks2, ev :: evs)
      else (IRECV_E_SUCCESS, ks2, ev :: evs)
  else (IRECV_E_SUCCESS, ks + 1, [ev])

/-- The packet loop of `irecv_send_buffer` (`for (i = 0; i < packets; i++)`),
over the list of packet indices.  `h1` is the running CRC register, `kx` /
`ks` are the ordinals of the next data transfer / GETSTATUS transfer.
Recovery mode bulk-transfers each chunk on endpoint 0x04; DFU/WTF mode
control-transfers it with `(0x21, 1, i, 0)`; with CRC active the last
packet carries the 16-byte trailer (magic plus little-endian CRC register),
appended in place when it fits the packet size and sent as a separate
packet with the same index otherwise; a short data transfer is
`IRECV_E_USB_UPLOAD`, and each DFU packet is followed by the status
check. -/
def send_buffer_loop (env : usb_env) (recovery_mode dfu_crc : Bool)
    (buffer : List Nat) (packet_size packets last : Nat) :
    List Nat → Nat → Nat → Nat → irecv_error × Nat × Nat × List usb_event
  | [], _, kx, ks => (IRECV_E_SUCCESS, kx, ks, [])
  | i :: rest, h1, kx, ks =>
    let size := if i + 1 < packets then packet_size else last
    let chunk := (buffer.drop (i * packet_size)).take size
    if recovery_mode then
      let ev := usb_event.bulk 0x04 chunk size
      if env.xfer_ret kx size ≠ size then (IRECV_E_USB_UPLOAD, kx + 1, ks, [ev])
      else
        match send_buffer_loop env recovery_mode dfu_crc buffer packet_size packets last
            rest h1 (kx + 1) ks with
        | (e, kx2, ks2, evs) => (e, kx2, ks2, ev :: evs)
    else
      let h1a := if dfu_crc then crc32_over h1 chunk else h1
      if dfu_crc ∧ i + 1 = packets then
        if size + 16 > packet_size then
          let ev1 := usb_event.control 0x21 1 i 0 chunk size
          if env.xfer_ret kx size ≠ size then (IRECV_E_USB_UPLOAD, kx + 1, ks, [ev1])
          else
            let h1b := crc32_over h1a dfu_xbuf
            let ev2 := usb_event.control 0x21 1 i 0 (dfu_xbuf ++ crc_bytes h1b) 16
            if env.xfer_ret (kx + 1) 16 ≠ 16 then (IRECV_E_USB_UPLOAD, kx + 2, ks, [ev1, ev2])
            else
              match dfu_packet_status_check env ks with
              | (e, ks2, sevs) =>
                if e ≠ IRECV_E_SUCCESS then (e, kx + 2, ks2, ev1 :: ev2 :: sevs)
                else
                  match send_buffer_loop env recovery_mode dfu_crc buffer packet_size packets last
                      rest h1b (kx + 2) ks2 with
                  | (e2, kx2, ks3, evs) => (e2, kx2, ks3, ev1 :: ev2 :: (sevs ++ evs))
        else
          let h1b := crc32_over h1a dfu_xbuf
          let ev := usb_event.control 0x21 1 i 0 (chunk ++ dfu_xbuf ++ crc_bytes h1b) (size + 16)
          if env.xfer_ret kx (size + 16) ≠ size + 16 then (IRECV_E_USB_UPLOAD, kx + 1, ks, [ev])
          else
            match dfu_packet_status_check env ks with
            | (e, ks2, sevs) =>
              if e ≠ IRECV_E_SUCCESS then (e, kx + 1, ks2, ev :: sevs)
              else
                match send_buffer_loop env recovery_mode dfu_crc buffer packet_size packets last
                    rest h1b (kx + 1) ks2 with
                | (e2, kx2, ks3, evs) => (e2, kx2, ks3, ev :: (sevs ++ evs))
      else
        let ev := usb_event.control 0x21 1 i 0 chunk size
        if env.xfer_ret kx size ≠ size then (IRECV_E_USB_UPLOAD, kx + 1, ks, [ev])
        else
          match dfu_packet_status_check env ks with
          | (e, ks2, sevs) =>
            if e ≠ IRECV_E_SUCCESS then (e, kx + 1, ks2, ev :: sevs)
            else
              match send_buffer_loop env recovery_mode dfu_crc buffer packet_size packets last
                  rest h1a (kx + 1) ks2 with
              | (e2, kx2, ks3, evs) => (e2, kx2, ks3, ev :: (sevs ++ evs))

/-- The `IRECV_SEND_OPT_DFU_NOTIFY_FINISH` epilogue of the DFU flow:
terminating control `(0x21, 1, packets, 0, NULL, 0)` (result ignored), two
status reads whose errors propagate, the optional pseudo-ZLP under
`IRECV_SEND_OPT_DFU_FORCE_ZLP`, then `irecv_reset`. -/
def dfu_notify_finish (env : usb_env) (ks packets : Nat) (force_zlp : Bool) :
    irecv_error × List usb_event :=
  let ev0 := usb_event.control 0x21 1 packets 0 [] 0
  let r1 := env.status_reply ks
  let ev1 := usb_event.control 0xA1 3 0 0 r1 6
  if (irecv_get_status r1).1 ≠ IRECV_E_SUCCESS then ((irecv_get_status r1).1, [ev0, ev1])
  else
    let r2 := env.status_reply (ks + 1)
    let ev2 := usb_event.control 0xA1 3 0 0 r2 6
    if (irecv_get_status r2).1 ≠ IRECV_E_SUCCESS then ((irecv_get_status r2).1, [ev0, ev1, ev2])
    else
      (IRECV_E_SUCCESS,
        [ev0, ev1, ev2] ++
          (if force_zlp then [usb_event.control 0x21 1 0 0 [] 0] else []) ++
          [usb_event.reset])

/-- KIS portal id `KIS_PORTAL_CONFIG`. -/
def KIS_PORTAL_CONFIG : Nat := 0x01

/-- KIS portal id `KIS_PORTAL_RSM`. -/
def KIS_PORTAL_RSM : Nat := 0x10

/-- KIS request index `KIS_INDEX_UPLOAD`. -/
def KIS_INDEX_UPLOAD : Nat := 0x0D

/-- KIS request index `KIS_INDEX_BOOT_IMG`. -/
def KIS_INDEX_BOOT_IMG : Nat := 0x103

/-- Embedding of `irecv_kis_request`: route the request to endpoint 1
(`CONFIG`) or 3 (`RSM`), bulk-write the serialised request (a short write
is `IRECV_E_USB_UPLOAD`), then bulk-read the reply from the same endpoint
or-ed with 0x80 (`rplSize` is the reply buffer size; the received count is
not checked, and the reply payload itself is device-side data that no
claim inspects, so the read is recorded with empty data). -/
def irecv_kis_request (env : usb_env) (portal : Nat) (reqBytes : List Nat) (rplSize kx : Nat) :
    irecv_error × Nat × List usb_event :=
  if portal = KIS_PORTAL_CONFIG ∨ portal = KIS_PORTAL_RSM then
    let endpoint := if portal = KIS_PORTAL_CONFIG then 1 else 3
    let ev1 := usb_event.bulk endpoint reqBytes reqBytes.length
    if env.xfer_ret kx reqBytes.length ≠ reqBytes.length then
      (IRECV_E_USB_UPLOAD, kx + 1, [ev1])
    else
      (IRECV_E_SUCCESS, kx + 1, [ev1, usb_event.bulk (endpoint ||| 0x80) [] rplSize])
  else (IRECV_E_INVALID_INPUT, kx, [])

/-- Embedding of `irecv_kis_config_write32`: a one-argument request carrying
a 32-bit value, reply `KIS_generic_reply` (20 bytes).  After a successful
exchange the C code checks `rpl.size != 4` but then returns `err`, which is
already `IRECV_E_SUCCESS` at that point — so a completed exchange is always
success, as modelled. -/
def irecv_kis_config_write32 (env : usb_env) (portal index value kx : Nat) :
    irecv_error × Nat × List usb_event :=
  match irecv_kis_request_init portal index 1 0 1 with
  | (e, none) => (e, kx, [])
  | (_, some hdr) =>
    match irecv_kis_request env portal (KIS_req_header_bytes hdr ++ le32 value) 20 kx with
    | (e, kx2, evs) => (e, kx2, evs)

/-- The chunked KIS upload loop of `irecv_kis_send_buffer`: 0x4000-byte
chunks, each sent as an `(RSM, KIS_INDEX_UPLOAD)` request with three
argument words (`address` as u64, `size` as u32) followed by the chunk
bytes; the bulk write sends `sizeof(KIS_upload_chunk) - (0x4000 - toUpload)`
= 24 + toUpload bytes. -/
def kis_loop (env : usb_env) : (buf : List Nat) → Nat → Nat → irecv_error × Nat × List usb_event
  | [], _, kx => (IRECV_E_SUCCESS, kx, [])
  | b :: bs, address, kx =>
    let toUpload := min (b :: bs).length 0x4000
    match irecv_kis_request_init KIS_PORTAL_RSM KIS_INDEX_UPLOAD 3 toUpload 0 with
    | (e, none) => (e, kx, [])
    | (_, some hdr) =>
      match irecv_kis_request env KIS_PORTAL_RSM
          (KIS_req_header_bytes hdr ++ le64 address ++ le32 toUpload ++ (b :: bs).take toUpload)
          20 kx with
      | (e, kx2, evs) =>
        if e ≠ IRECV_E_SUCCESS then (e, kx2, evs)
        else
          match kis_loop env ((b :: bs).drop toUpload) (address + toUpload) kx2 with
          | (e2, kx3, evs2) => (e2, kx3, evs ++ evs2)
termination_by buf => buf.length
decreasing_by
  simp only [List.length_drop, List.length_cons]
  omega

/-- Embedding of `irecv_kis_send_buffer`: only a KIS device reporting DFU
mode is supported; otherwise the buffer is uploaded in chunks and, under
`IRECV_SEND_OPT_DFU_NOTIFY_FINISH`, the boot image is notified by writing
the total length to `(RSM, KIS_INDEX_BOOT_IMG)`. -/
def irecv_kis_send_buffer (env : usb_env) (client : irecv_client)
    (buffer : List Nat) (options : Nat) : irecv_error × List usb_event :=
  if client.mode ≠ IRECV_K_DFU_MODE then (IRECV_E_UNSUPPORTED, [])
  else
    match kis_loop env buffer 0 0 with
    | (e, kx, evs) =>
      if e ≠ IRECV_E_SUCCESS then (e, evs)
      else if options &&& IRECV_SEND_OPT_DFU_NOTIFY_FINISH ≠ 0 then
        match irecv_kis_config_write32 env KIS_PORTAL_RSM KIS_INDEX_BOOT_IMG buffer.length kx with
        | (e2, _, evs2) => (e2, evs ++ evs2)
      else (IRECV_E_SUCCESS, evs)

/-- Embedding of `irecv_send_buffer`: KIS clients delegate to the KIS path;
otherwise the mode selects the Recovery flow (bulk, packet size 0x8000,
terminating zero-length packet when the length is a multiple of 512) or the
DFU/WTF flow (control, packet size 0x800 — 0x40 without CRC under
`IRECV_SEND_OPT_DFU_SMALL_PKT` — after the GETSTATE handshake, with the
CRC trailer and per-packet status checks, and the optional notify-finish
epilogue). -/
def irecv_send_buffer (env : usb_env) (client : irecv_client)
    (buffer : List Nat) (options : Nat) : irecv_error × List usb_event :=
  if client.isKIS then irecv_kis_send_buffer env client buffer options
  else
    let recovery_mode : Bool :=
      (client.mode != IRECV_K_DFU_MODE) && (client.mode != IRECV_K_PORT_DFU_MODE) &&
        (client.mode != IRECV_K_WTF_MODE)
    if !client.valid_context then (IRECV_E_NO_DEVICE, [])
    else
      let small := !recovery_mode && (options &&& IRECV_SEND_OPT_DFU_SMALL_PKT != 0)
      let packet_size := if recovery_mode then 0x8000 else if small then 0x40 else 0x800
      let dfu_crc := !small
      let length := buffer.length
      let last0 := length % packet_size
      let packets0 := length / packet_size
      let packets := if last0 ≠ 0 then packets0 + 1 else packets0
      let last := if last0 ≠ 0 then last0 else packet_size
      if recovery_mode then
        let ev0 := usb_event.control 0x41 0 0 0 [] 0
        match send_buffer_loop env recovery_mode dfu_crc buffer packet_size packets last
            (List.range packets) 0xFFFFFFFF 0 0 with
        | (e, _, _, evs) =>
          if e ≠ IRECV_E_SUCCESS then (e, ev0 :: evs)
          else
            (IRECV_E_SUCCESS,
              ev0 :: (evs ++ (if length % 512 = 0 then [usb_event.bulk 0x04 [] 0] else [])))
      else
        let ev0 := usb_event.control 0xA1 5 0 0 env.dfu_state_reply 1
        if env.dfu_state_reply.length ≠ 1 then (IRECV_E_USB_UPLOAD, [ev0])
        else
          let st := env.dfu_state_reply.getD 0 0
          if st = 2 then
            match send_buffer_loop env recovery_mode dfu_crc buffer packet_size packets last
                (List.range packets) 0xFFFFFFFF 0 0 with
            | (e, _, ks, evs) =>
              if e ≠ IRECV_E_SUCCESS then (e, ev0 :: evs)
              else if options &&& IRECV_SEND_OPT_DFU_NOTIFY_FINISH ≠ 0 then
                match dfu_notify_finish env ks packets
                    (options &&& IRECV_SEND_OPT_DFU_FORCE_ZLP ≠ 0) with
                | (e2, evs2) => (e2, ev0 :: (evs ++ evs2))
              else (IRECV_E_SUCCESS, ev0 :: evs)
          else if st = 10 then
            (IRECV_E_USB_UPLOAD, [ev0, usb_event.control 0x21 4 0 0 [] 0])
          else
            (IRECV_E_USB_UPLOAD, [ev0, usb_event.control 0x21 6 0 0 [] 0])

/-- A device/transport environment in which every transfer completes as
requested, the DFU GETSTATE query reports state 2 (dfuIDLE), and every
GETSTATUS reply reports status 5 (dfuDNLOAD-IDLE). -/
def env_ok : usb_env := ⟨fun _ sz => sz, [2], fun _ => [0, 0, 0, 0, 5, 0]⟩

/-- A DFU-mode client with a valid context and no callbacks. -/
def dfu_client : irecv_client := ⟨IRECV_K_DFU_MODE, false, true, none, none⟩

/-- Recognises the DFU data-phase control transfers `(0x21, 1, …)`. -/
def is_dfu_data_packet : usb_event → Bool
  | usb_event.control 0x21 1 _ _ _ _ => true
  | _ => false

set_option maxRecDepth 8000 in
/-- C2, counterexample.  Uploading the 16-byte payload `0x00..0x0F` in DFU
mode with CRC enabled issues exactly ONE `(0x21, 1, 0, 0)` data-phase
control transfer — not a data packet followed by a second, trailer-only
transfer: `size + 16 = 32` does not exceed the 0x800 packet size, so the
code appends the 16-byte trailer to the data and sends both together. -/
theorem C2_counterexample :
    ((irecv_send_buffer env_ok dfu_client (List.range 16) 0).2.filter is_dfu_data_packet).length
      = 1 := by decide

set_option maxRecDepth 8000 in
/-- C2, amended.  When `irecv_send_buffer` uploads the 16-byte payload
`0x00..0x0F` in DFU mode with CRC enabled (no `DFU_SMALL_PKT`), the 16 data
bytes and the 16-byte trailer are sent together in a single control
transfer `(0x21, 1, 0, 0)` of 32 bytes (a separate trailer-only transfer
with the same index happens only when appending 16 bytes would overflow the
packet size); the trailer is the 12 magic bytes
`FF FF FF FF AC 05 00 01 55 46 44 10` followed by the 4-byte little-endian
CRC register (`0x9C3D85E3`, i.e. bytes `E3 85 3D 9C`) computed over the 16
data bytes and then the two six-byte magic halves. -/
theorem C2_dfu_crc_trailer :
    irecv_send_buffer env_ok dfu_client (List.range 16) 0
      = (IRECV_E_SUCCESS,
         [usb_event.control 0xA1 5 0 0 [2] 1,
          usb_event.control 0x21 1 0 0
            (List.range 16 ++ dfu_xbuf ++ [0xE3, 0x85, 0x3D, 0x9C]) 32,
          usb_event.control 0xA1 3 0 0 [0, 0, 0, 0, 5, 0] 6]) ∧
    crc32_over (crc32_over 0xFFFFFFFF (List.range 16)) dfu_xbuf = 0x9C3D85E3 ∧
    crc_bytes 0x9C3D85E3 = [0xE3, 0x85, 0x3D, 0x9C] := by
  refine ⟨by decide, by decide, by decide⟩

/-- C9.  For every client whose `isKIS` flag is set but whose mode is not
DFU (0x1227), `irecv_send_buffer` returns `IRECV_E_UNSUPPORTED` without
performing any USB transfer: the KIS chunked-upload path is reachable only
when the KIS device reports DFU mode. -/
theorem C9_kis_requires_dfu_mode (env : usb_env) (client : irecv_client)
    (buffer : List Nat) (options : Nat)
    (hkis : client.isKIS = true) (hmode : client.mode ≠ IRECV_K_DFU_MODE) :
    irecv_send_buffer env client buffer options = (IRECV_E_UNSUPPORTED, []) := by
  unfold irecv_send_buffer irecv_kis_send_buffer
  rw [hkis, if_pos rfl, if_pos hmode]

/-- C9, witness: a KIS client in Recovery-mode pid 0x1280. -/
theorem C9_kis_requires_dfu_mode_witness :
    irecv_send_buffer env_ok ⟨0x1280, true, true, none, none⟩ (List.range 4) 0
      = (IRECV_E_UNSUPPORTED, []) :=
  C9_kis_requires_dfu_mode env_ok ⟨0x1280, true, true, none, none⟩ (List.range 4) 0 rfl
    (by decide)

/-- Helper for C8: the retry loop ends with status 5 iff one of its up to
`n` reads reports status 5 (entered with a non-5 status). -/
theorem dfu_status_retry_five (env : usb_env) :
    ∀ (n ks st : Nat), st ≠ 5 →
      ((dfu_status_retry env ks st n).1 = 5 ↔
        ∃ i, i < n ∧ (irecv_get_status (env.status_reply (ks + i))).2 = 5) := by
  intro n
  induction n with
  | zero =>
    intro ks st hst
    simp [dfu_status_retry, hst]
  | succ n ih =>
    intro ks st hst
    rw [dfu_status_retry]
    by_cases h5 : (irecv_get_status (env.status_reply ks)).2 = 5
    · rw [if_pos h5]
      constructor
      · intro _
        exact ⟨0, by omega, by simpa using h5⟩
      · intro _
        rfl
    · rw [if_neg h5]
      rcases hr : dfu_status_retry env (ks + 1) (irecv_get_status (env.status_reply ks)).2 n
        with ⟨s2, ks2, evs⟩
      have hih := ih (ks + 1) _ h5
      rw [hr] at hih
      dsimp only at hih ⊢
      rw [hih]
      constructor
      · rintro ⟨i, hi, hp⟩
        refine ⟨i + 1, by omega, ?_⟩
        rw [show ks + (i + 1) = ks + 1 + i by omega]
        exact hp
      · rintro ⟨i, hi, hp⟩
        cases i with
        | zero => exact absurd (by simpa using hp) h5
        | succ i =>
          refine ⟨i, by omega, ?_⟩
          rw [show ks + 1 + i = ks + (i + 1) by omega]
          exact hp

/-- C8.  In the DFU upload flow, after each data packet the engine reads
the DFU status as byte 4 of a 6-byte `(0xA1, 3)` GETSTATUS reply; if that
status is not 5 it re-reads the status up to 20 times (sleeping 1 second
between reads), and the per-packet check — used by `irecv_send_buffer`
after every DFU data packet — yields `IRECV_E_USB_UPLOAD` if and only if
the initial read and all 20 retries report a status other than 5; otherwise
the upload proceeds (the check succeeds). -/
theorem C8_dfu_status_poll :
    (∀ reply : List Nat, reply.length = 6 →
        irecv_get_status reply = (IRECV_E_SUCCESS, reply.getD 4 0)) ∧
    (∀ (env : usb_env) (ks : Nat), (∀ k, (env.status_reply k).length = 6) →
      (((dfu_packet_status_check env ks).1 = IRECV_E_USB_UPLOAD ↔
          (env.status_reply ks).getD 4 0 ≠ 5 ∧
          ∀ i, 1 ≤ i → i ≤ 20 → (env.status_reply (ks + i)).getD 4 0 ≠ 5) ∧
        ((dfu_packet_status_check env ks).1 = IRECV_E_USB_UPLOAD ∨
          (dfu_packet_status_check env ks).1 = IRECV_E_SUCCESS))) := by
  have hget : ∀ reply : List Nat, reply.length = 6 →
      irecv_get_status reply = (IRECV_E_SUCCESS, reply.getD 4 0) := by
    intro reply h
    unfold irecv_get_status
    rw [if_neg (by omega)]
  refine ⟨hget, ?_⟩
  intro env ks h6
  have hgk : ∀ k, (irecv_get_status (env.status_reply k)).2 = (env.status_reply k).getD 4 0 := by
    intro k
    rw [hget _ (h6 k)]
  simp only [dfu_packet_status_check]
  rw [hget _ (h6 ks)]
  dsimp only
  rw [if_neg (by simp)]
  by_cases h5 : (env.status_reply ks).getD 4 0 = 5
  · rw [if_neg (by simpa using h5)]
    constructor
    · constructor
      · intro h
        exact absurd h (by simp)
      · rintro ⟨h1, -⟩
        exact absurd h5 h1
    · exact Or.inr rfl
  · rw [if_pos (by simpa using h5)]
    rcases hr : dfu_status_retry env (ks + 1) ((env.status_reply ks).getD 4 0) 20
      with ⟨s2, ks2, evs⟩
    have hfive := dfu_status_retry_five env 20 (ks + 1) _ h5
    rw [hr] at hfive
    dsimp only at hfive ⊢
    by_cases hs2 : s2 = 5
    · rw [if_neg (by simpa using hs2)]
      constructor
      · constructor
        · intro h
          exact absurd h (by simp)
        · rintro ⟨-, hall⟩
          obtain ⟨i, hi, hp⟩ := hfive.mp hs2
          rw [hgk] at hp
          exact absurd hp (by
            have := hall (i + 1) (by omega) (by omega)
            rw [show ks + (i + 1) = ks + 1 + i by omega] at this
            exact this)
      · exact Or.inr rfl
    · rw [if_pos (by simpa using hs2)]
      constructor
      · constructor
        · intro _
          refine ⟨h5, ?_⟩
          intro i h1 h20
          intro hcon
          apply hs2
          apply hfive.mpr
          refine ⟨i - 1, by omega, ?_⟩
          rw [hgk, show ks + 1 + (i - 1) = ks + i by omega]
          exact hcon
        · intro _
          rfl
      · exact Or.inl rfl

/-- An environment whose GETSTATUS replies always report status 0. -/
def env_status_zero : usb_env := ⟨fun _ sz => sz, [2], fun _ => [0, 0, 0, 0, 0, 0]⟩

/-- C8, witness: with every GETSTATUS reply reporting status 0, the check
yields `IRECV_E_USB_UPLOAD`, and the iff instance holds. -/
theorem C8_dfu_status_poll_witness :
    irecv_get_status [0, 0, 0, 0, 5, 0] = (IRECV_E_SUCCESS, [0, 0, 0, 0, 5, 0].getD 4 0) ∧
    ((dfu_packet_status_check env_status_zero 0).1 = IRECV_E_USB_UPLOAD ↔
      (env_status_zero.status_reply 0).getD 4 0 ≠ 5 ∧
        ∀ i, 1 ≤ i → i ≤ 20 → (env_status_zero.status_reply (0 + i)).getD 4 0 ≠ 5) :=
  ⟨C8_dfu_status_poll.1 [0, 0, 0, 0, 5, 0] rfl,
   (C8_dfu_status_poll.2 env_status_zero 0 (fun _ => rfl)).1⟩

/-- Helper for C6: with every transfer completing as requested, the
Recovery-mode packet loop succeeds and its trace is exactly one endpoint-4
bulk transfer per packet index with the chunk at that index. -/
theorem send_buffer_loop_recovery (env : usb_env) (dfu_crc : Bool)
    (buffer : List Nat) (psz packets last : Nat)
    (henv : ∀ k sz, env.xfer_ret k sz = sz) :
    ∀ (idxs : List Nat) (h1 kx ks : Nat),
      send_buffer_loop env true dfu_crc buffer psz packets last idxs h1 kx ks
        = (IRECV_E_SUCCESS, kx + idxs.length, ks,
           idxs.map (fun i =>
             usb_event.bulk 0x04
               ((buffer.drop (i * psz)).take (if i + 1 < packets then psz else last))
               (if i + 1 < packets then psz else last))) := by
  intro idxs
  induction idxs with
  | nil =>
    intro h1 kx ks
    simp [send_buffer_loop]
  | cons i rest ih =>
    intro h1 kx ks
    rw [send_buffer_loop, ih h1 (kx + 1) ks]
    have harith : kx + 1 + rest.length = kx + (rest.length + 1) := by omega
    simp [henv, harith]

/-- The packet count of the Recovery upload of a buffer of the given
length (`packets` as computed by `irecv_send_buffer` for packet size
0x8000). -/
def recovery_packets (len : Nat) : Nat :=
  if len % 0x8000 ≠ 0 then len / 0x8000 + 1 else len / 0x8000

/-- The size of the final Recovery packet (`last` as computed by
`irecv_send_buffer` for packet size 0x8000). -/
def recovery_last (len : Nat) : Nat :=
  if len % 0x8000 ≠ 0 then len % 0x8000 else 0x8000

/-- Helper for C6: the packet decomposition of the Recovery upload covers
the buffer — the concatenation of the per-index chunks is the buffer
itself. -/
theorem recovery_chunks_flatten :
    ∀ (n : Nat) (buf : List Nat), buf.length ≤ n → buf ≠ [] →
      ((List.range (recovery_packets buf.length)).map
        (fun i => (buf.drop (i * 0x8000)).take
          (if i + 1 < recovery_packets buf.length then 0x8000
           else recovery_last buf.length))).flatten = buf := by
  intro n
  induction n with
  | zero =>
    intro buf hlen hne
    exact absurd (List.length_eq_zero.mp (by omega)) hne
  | succ n ih =>
    intro buf hlen hne
    have hlen0 : buf.length ≠ 0 := fun h => hne (List.length_eq_zero.mp h)
    rcases Nat.lt_or_ge buf.length 0x8001 with hsmall | hbig
    · -- a single packet: the whole buffer
      have hp1 : recovery_packets buf.length = 1 := by
        unfold recovery_packets
        rcases Nat.lt_or_ge buf.length 0x8000 with h | h
        · rw [if_pos (by omega)]
          omega
        · have hx : buf.length = 0x8000 := by omega
          rw [hx]
          norm_num
      have hl : recovery_last buf.length = buf.length := by
        unfold recovery_last
        rcases Nat.lt_or_ge buf.length 0x8000 with h | h
        · rw [if_pos (by omega)]
          omega
        · have hx : buf.length = 0x8000 := by omega
          rw [hx]
          norm_num
      rw [hp1, hl]
      simp [show List.range 1 = [0] from rfl, List.take_length]
    · -- at least two packets: peel off the first 0x8000 bytes
      have hdl : (buf.drop 0x8000).length = buf.length - 0x8000 := by simp
      have hne2 : buf.drop 0x8000 ≠ [] := by
        intro h
        have := congrArg List.length h
        simp at this
        omega
      have hrec := ih (buf.drop 0x8000) (by simp; omega) hne2
      have hpk : recovery_packets buf.length
          = recovery_packets (buf.drop 0x8000).length + 1 := by
        rw [hdl]
        unfold recovery_packets
        rcases Nat.eq_zero_or_pos (buf.length % 0x8000) with hz | hpos
        · rw [if_neg (by omega), if_neg (by omega)]
          omega
        · rw [if_pos (by omega), if_pos (by omega)]
          omega
      have hlast2 : recovery_last buf.length = recovery_last (buf.drop 0x8000).length := by
        rw [hdl]
        unfold recovery_last
        rcases Nat.eq_zero_or_pos (buf.length % 0x8000) with hz | hpos
        · rw [if_neg (by omega), if_neg (by omega)]
        · rw [if_pos (by omega), if_pos (by omega)]
          omega
      have hp1 : 1 ≤ recovery_packets (buf.drop 0x8000).length := by
        rw [hdl]
        unfold recovery_packets
        rcases Nat.eq_zero_or_pos ((buf.length - 0x8000) % 0x8000) with hz | hpos
        · rw [if_neg (by omega)]
          omega
        · rw [if_pos (by omega)]
          omega
      rw [hpk, hlast2, List.range_succ_eq_map, List.map_cons, List.map_map, List.flatten_cons]
      have hmap : ∀ a ∈ List.range (recovery_packets (buf.drop 0x8000).length),
          ((fun i => (buf.drop (i * 0x8000)).take
              (if i + 1 < recovery_packets (buf.drop 0x8000).length + 1 then 0x8000
               else recovery_last (buf.drop 0x8000).length)) ∘ Nat.succ) a
            = (fun i => ((buf.drop 0x8000).drop (i * 0x8000)).take
                (if i + 1 < recovery_packets (buf.drop 0x8000).length then 0x8000
                 else recovery_last (buf.drop 0x8000).length)) a := by
        intro a _
        simp only [Function.comp]
        rw [List.drop_drop]
        have harg : Nat.succ a * 0x8000 = 0x8000 + a * 0x8000 := by
          rw [Nat.succ_mul]
          omega
        rw [harg]
        have hcond : (Nat.succ a + 1 < recovery_packets (buf.drop 0x8000).length + 1)
            = (a + 1 < recovery_packets (buf.drop 0x8000).length) := by
          simp [Nat.succ_eq_add_one]
        simp only [hcond]
      rw [List.map_congr_left hmap, hrec]
      have hfirst : (buf.drop (0 * 0x8000)).take
          (if 0 + 1 < recovery_packets (buf.drop 0x8000).length + 1 then 0x8000
           else recovery_last (buf.drop 0x8000).length) = buf.take 0x8000 := by
        rw [if_pos (by omega)]
        simp
      rw [hfirst, List.take_append_drop]

/-- Helper for C6: ceiling bounds for the Recovery packet count. -/
theorem recovery_packets_bounds (len : Nat) (h : len ≠ 0) :
    len ≤ recovery_packets len * 0x8000 ∧
    recovery_packets len * 0x8000 < len + 0x8000 ∧
    recovery_last len = len - (recovery_packets len - 1) * 0x8000 ∧
    1 ≤ recovery_packets len ∧ recovery_last len ≤ 0x8000 := by
  unfold recovery_packets recovery_last
  rcases Nat.eq_zero_or_pos (len % 0x8000) with hz | hpos
  · rw [if_neg (by omega), if_neg (by omega)]
    omega
  · rw [if_pos (by omega), if_pos (by omega)]
    omega

/-- C6.  For every non-empty buffer uploaded by `irecv_send_buffer` in
Recovery mode (valid context, non-KIS, with every bulk transfer completing
in full), the engine performs, after the initiating control transfer
`(0x41, 0)`, exactly `⌈n / 0x8000⌉` bulk transfers on endpoint 0x04 whose
payloads concatenate to the buffer in order (each at most 0x8000 bytes,
the last possibly short), followed by one additional zero-length bulk
transfer on endpoint 0x04 exactly when `n` is a multiple of 512. -/
theorem C6_recovery_upload (env : usb_env) (client : irecv_client)
    (buf : List Nat) (options : Nat)
    (hkis : client.isKIS = false) (hctx : client.valid_context = true)
    (hd : client.mode ≠ IRECV_K_DFU_MODE) (hpd : client.mode ≠ IRECV_K_PORT_DFU_MODE)
    (hw : client.mode ≠ IRECV_K_WTF_MODE)
    (henv : ∀ k sz, env.xfer_ret k sz = sz) (hne : buf ≠ []) :
    ∃ chunks : List (List Nat),
      irecv_send_buffer env client buf options
        = (IRECV_E_SUCCESS,
          usb_event.control 0x41 0 0 0 [] 0 ::
            (chunks.map (fun c => usb_event.bulk 0x04 c c.length) ++
              (if buf.length % 512 = 0 then [usb_event.bulk 0x04 [] 0] else []))) ∧
      chunks.length = (buf.length + 0x8000 - 1) / 0x8000 ∧
      chunks.flatten = buf ∧
      (∀ c ∈ chunks, c.length ≤ 0x8000) := by
  have hlen0 : buf.length ≠ 0 := fun h => hne (List.length_eq_zero.mp h)
  obtain ⟨hb1, hb2, hb3, hb4, hb5⟩ := recovery_packets_bounds buf.length hlen0
  refine ⟨(List.range (recovery_packets buf.length)).map
    (fun i => (buf.drop (i * 0x8000)).take
      (if i + 1 < recovery_packets buf.length then 0x8000
       else recovery_last buf.length)), ?_, ?_, ?_, ?_⟩
  · -- the trace equation
    have hsize : ∀ i ∈ List.range (recovery_packets buf.length),
        ((buf.drop (i * 0x8000)).take
          (if i + 1 < recovery_packets buf.length then 0x8000
           else recovery_last buf.length)).length
        = (if i + 1 < recovery_packets buf.length then 0x8000
           else recovery_last buf.length) := by
      intro i hi
      have hiP := List.mem_range.mp hi
      simp only [List.length_take, List.length_drop]
      by_cases hc : i + 1 < recovery_packets buf.length
      · simp only [if_pos hc]
        omega
      · simp only [if_neg hc]
        omega
    have hrm : ((client.mode != IRECV_K_DFU_MODE) && (client.mode != IRECV_K_PORT_DFU_MODE) &&
        (client.mode != IRECV_K_WTF_MODE)) = true := by
      simp [bne_iff_ne, hd, hpd, hw]
    unfold irecv_send_buffer
    simp only [hkis, Bool.false_eq_true, if_false, hrm, hctx, Bool.not_true, Bool.not_false,
      Bool.false_and, Bool.true_and, Bool.and_self, ite_true, ite_false, if_true, if_false]
    rw [show (if buf.length % 0x8000 ≠ 0 then buf.length / 0x8000 + 1 else buf.length / 0x8000)
        = recovery_packets buf.length from rfl,
      show (if buf.length % 0x8000 ≠ 0 then buf.length % 0x8000 else 0x8000)
        = recovery_last buf.length from rfl]
    rw [send_buffer_loop_recovery env true buf 0x8000 (recovery_packets buf.length)
      (recovery_last buf.length) henv (List.range (recovery_packets buf.length)) 0xFFFFFFFF 0 0]
    simp only [ne_eq, not_true_eq_false, if_false, ite_false, reduceIte, List.map_map]
    rw [List.map_congr_left (fun i hi => ?_)]
    simp only [Function.comp]
    rw [hsize i hi]
  · simp only [List.length_map, List.length_range]
    unfold recovery_packets
    rcases Nat.eq_zero_or_pos (buf.length % 0x8000) with hz | hpos
    · rw [if_neg (by omega)]
      omega
    · rw [if_pos (by omega)]
      omega
  · exact recovery_chunks_flatten buf.length buf (Nat.le_refl _) hne
  · intro c hc
    simp only [List.mem_map, List.mem_range] at hc
    obtain ⟨i, hi, rfl⟩ := hc
    simp only [List.length_take]
    by_cases h : i + 1 < recovery_packets buf.length
    · simp only [if_pos h]
      omega
    · simp only [if_neg h]
      omega

/-- C6, witness: uploading 1024 bytes (a multiple of 512) in Recovery mode
pid 0x1281 with an all-successful transport. -/
theorem C6_recovery_upload_witness :
    ∃ chunks : List (List Nat),
      irecv_send_buffer env_ok ⟨0x1281, false, true, none, none⟩ (List.replicate 1024 7) 0
        = (IRECV_E_SUCCESS,
          usb_event.control 0x41 0 0 0 [] 0 ::
            (chunks.map (fun c => usb_event.bulk 0x04 c c.length) ++
              (if (List.replicate 1024 7).length % 512 = 0 then [usb_event.bulk 0x04 [] 0]
               else []))) ∧
      chunks.length = ((List.replicate 1024 7).length + 0x8000 - 1) / 0x8000 ∧
      chunks.flatten = List.replicate 1024 7 ∧
      (∀ c ∈ chunks, c.length ≤ 0x8000) :=
  C6_recovery_upload env_ok ⟨0x1281, false, true, none, none⟩ (List.replicate 1024 7) 0
    rfl rfl (by decide) (by decide) (by decide) (fun _ _ => rfl)
    (List.length_pos.mp (by rw [List.length_replicate]; omega))

/-! ## Command sending (`irecv_send_command_raw`, `irecv_send_command_breq`) -/

/-- Embedding of `irecv_send_command_raw`: a command of length ≥ 0x100 is
invalid input; a non-empty command is sent in a control transfer
`(0x40, b_request, 0, 0, command, length + 1)` — the trailing NUL is part
of the transfer — whose result is ignored; an empty command performs no
transfer.  The function always returns success when the length check
passes. -/
def irecv_send_command_raw (command : List Char) (b_request : Nat) :
    irecv_error × List usb_event :=
  let length := command.length
  if length ≥ 0x100 then (IRECV_E_INVALID_INPUT, [])
  else if length > 0 then
    (IRECV_E_SUCCESS,
      [usb_event.control 0x40 b_request 0 0 (command.map Char.toNat ++ [0]) (length + 1)])
  else (IRECV_E_SUCCESS, [])

/-- Embedding of `irecv_send_command_breq`: context check, length check
(before any callback), pre-command callback (a truthy return consumes the
command), raw send (only an error other than `IRECV_E_PIPE` propagates),
post-command callback, success. -/
def irecv_send_command_breq (client : irecv_client) (command : List Char) (b_request : Nat) :
    irecv_error × List usb_event :=
  if !client.valid_context then (IRECV_E_NO_DEVICE, [])
  else if command.length ≥ 0x100 then (IRECV_E_INVALID_INPUT, [])
  else if client.precommand_callback = some true then
    (IRECV_E_SUCCESS, [usb_event.cb_precommand])
  else
    let pre_evs := if client.precommand_callback = some false then [usb_event.cb_precommand]
      else []
    match irecv_send_command_raw command b_request with
    | (e, evs) =>
      if e ≠ IRECV_E_SUCCESS ∧ e ≠ IRECV_E_PIPE then (e, pre_evs ++ evs)
      else
        match client.postcommand_callback with
        | some _ => (IRECV_E_SUCCESS, pre_evs ++ evs ++ [usb_event.cb_postcommand])
        | none => (IRECV_E_SUCCESS, pre_evs ++ evs)

/-- Embedding of `irecv_send_command`. -/
def irecv_send_command (client : irecv_client) (command : List Char) :
    irecv_error × List usb_event :=
  irecv_send_command_breq client command 0

/-- Recognises USB transfers (control or bulk) in a trace. -/
def is_usb_transfer : usb_event → Bool
  | usb_event.control _ _ _ _ _ _ => true
  | usb_event.bulk _ _ _ => true
  | _ => false

/-- C7.  For every valid client, `irecv_send_command_breq` (hence
`irecv_send_command`) returns invalid-input for every command of length
≥ 0x100 — before any callback or USB transfer (the trace is empty) — while
a command of length 0xFF whose pre-command callback does not consume it is
accepted, and its control transfer carries `length + 1 = 0x100` bytes,
the command bytes plus the trailing NUL. -/
theorem C7_command_length :
    (∀ (client : irecv_client) (command : List Char) (b_request : Nat),
      client.valid_context = true → command.length ≥ 0x100 →
      irecv_send_command_breq client command b_request = (IRECV_E_INVALID_INPUT, [])) ∧
    (∀ (client : irecv_client) (command : List Char) (b_request : Nat),
      client.valid_context = true → command.length = 0xFF →
      client.precommand_callback ≠ some true →
      (irecv_send_command_breq client command b_request).1 = IRECV_E_SUCCESS ∧
      ((irecv_send_command_breq client command b_request).2.filter is_usb_transfer)
        = [usb_event.control 0x40 b_request 0 0 (command.map Char.toNat ++ [0]) 0x100]) := by
  constructor
  · intro client command b_request hctx hlen
    unfold irecv_send_command_breq
    rw [hctx]
    simp only [Bool.not_true, Bool.false_eq_true, if_false]
    rw [if_pos hlen]
  · intro client command b_request hctx hlen hpre
    unfold irecv_send_command_breq irecv_send_command_raw
    rw [hctx]
    simp only [Bool.not_true, Bool.false_eq_true, if_false]
    rw [if_neg (show ¬(command.length ≥ 0x100) by omega), if_neg hpre,
      if_neg (show ¬(command.length ≥ 0x100) by omega),
      if_pos (show command.length > 0 by omega), hlen]
    dsimp only
    rw [if_neg (by simp)]
    rcases hpost : client.postcommand_callback with _ | b <;>
      by_cases hp2 : client.precommand_callback = some false <;>
        simp [hp2, is_usb_transfer]

/-- C7, witness: a 256-character command is rejected with an empty trace;
a 255-character command is accepted and its transfer carries 0x100 bytes. -/
theorem C7_command_length_witness :
    irecv_send_command_breq dfu_client (List.replicate 0x100 'a') 0
      = (IRECV_E_INVALID_INPUT, []) ∧
    ((irecv_send_command_breq dfu_client (List.replicate 0xFF 'a') 0).1 = IRECV_E_SUCCESS ∧
      ((irecv_send_command_breq dfu_client (List.replicate 0xFF 'a') 0).2.filter is_usb_transfer)
        = [usb_event.control 0x40 0 0 0 ((List.replicate 0xFF 'a').map Char.toNat ++ [0]) 0x100]) :=
  ⟨C7_command_length.1 dfu_client (List.replicate 0x100 'a') 0 rfl
      (by rw [List.length_replicate]),
   C7_command_length.2 dfu_client (List.replicate 0xFF 'a') 0 rfl
      (by rw [List.length_replicate]) (by intro h; cases h)⟩

/-- C10.  For every valid client, `irecv_send_command` with the empty
string returns success without issuing any USB transfer:
`irecv_send_command_raw` performs its `(0x40, b_request)` control transfer
only when the command length is strictly positive (the trace may still
contain callback invocations, but no USB transfer). -/
theorem C10_empty_command (client : irecv_client) (hctx : client.valid_context = true) :
    (irecv_send_command client []).1 = IRECV_E_SUCCESS ∧
    ((irecv_send_command client []).2.filter is_usb_transfer) = [] ∧
    irecv_send_command_raw [] 0 = (IRECV_E_SUCCESS, []) := by
  refine ⟨?_, ?_, rfl⟩ <;>
  · unfold irecv_send_command irecv_send_command_breq irecv_send_command_raw
    rw [hctx]
    by_cases hpre : client.precommand_callback = some true
    · simp [hpre, is_usb_transfer]
    · rcases hpost : client.postcommand_callback with _ | b <;>
        by_cases hp2 : client.precommand_callback = some false <;>
          simp [hpre, hpost, hp2, is_usb_transfer]

/-- C10, witness: the empty command on a valid DFU client. -/
theorem C10_empty_command_witness :
    (irecv_send_command dfu_client []).1 = IRECV_E_SUCCESS ∧
    ((irecv_send_command dfu_client []).2.filter is_usb_transfer) = [] ∧
    irecv_send_command_raw [] 0 = (IRECV_E_SUCCESS, []) :=
  C10_empty_command dfu_client rfl
